import Mathlib

/-!
# VeritasLoop debate-orchestration core: a shallow embedding

This file embeds the debate-orchestration core of the VeritasLoop
repository in Lean 4 and proves properties of it:

* the data model (`src/models/schemas.py`),
* the raw search tools and their unified dispatcher (`src/tools/search_tools.py`),
* the caching tool-access layer (`src/utils/tool_manager.py`),
* the agent policy units (`src/agents/base_agent.py`, `pro_agent.py`,
  `contra_agent.py`, `judge_agent.py`),
* the state machine (`src/orchestrator/graph.py`, `src/orchestrator/debate.py`).

External capabilities (the generative model, the HTTP search endpoints, claim
extraction) are modelled as oracles supplied through an environment record, in
the shape the specification gives for them.  The natural-language content of
prompts is out of the specification's scope and is not modelled; a generative
call is an `Option String` outcome (`none` models a raised exception).
Machine floats carrying confidence scores only ever hold small decimal
constants in this code, so they are embedded as rationals.
-/

namespace VeritasLoop

/-- Python's substring operator `in`, used by the reliability mapping. -/
def pyContains (s pat : String) : Bool := decide (pat.toList <:+: s.toList)

/-! ## Data model, from `src/models/schemas.py` -/

/-- Reliability level of a source. -/
inductive Reliability
  | high
  | medium
  | low
  deriving DecidableEq, Repr

/-- Identifies the agent role. -/
inductive AgentType
  | PRO
  | CONTRA
  | JUDGE
  deriving DecidableEq, Repr

/-- Type of debate message. -/
inductive MessageType
  | argument
  | rebuttal
  | defense
  deriving DecidableEq, Repr

/-- Final verdict categories. -/
inductive VerdictType
  | VERO
  | FALSO
  | PARZIALMENTE_VERO
  | CONTESTO_MANCANTE
  | NON_VERIFICABILE
  deriving DecidableEq, Repr

/-- Category of the news claim. -/
inductive ClaimCategory
  | politics
  | health
  | economy
  | science
  | other
  deriving DecidableEq, Repr

/-- Entities extracted from the claim. -/
structure Entities where
  people : List String := []
  places : List String := []
  dates : List String := []
  organizations : List String := []
  deriving DecidableEq, Repr

/-- The claim to be verified (the `id : UUID` field plays no role here). -/
structure Claim where
  raw_input : String
  core_claim : String
  entities : Entities := {}
  category : ClaimCategory := ClaimCategory.other
  deriving DecidableEq, Repr

/-- A single information source. -/
structure Source where
  url : String
  title : String
  snippet : String
  reliability : Reliability
  timestamp : Option Nat := none
  agent : Option AgentType := none
  relevance_score : Option ℚ := none
  deriving DecidableEq, Repr

/-- A single message in the debate loop. -/
structure DebateMessage where
  round : Nat
  agent : AgentType
  message_type : MessageType
  content : String
  sources : List Source := []
  confidence : ℚ
  deriving DecidableEq, Repr

/-- Detailed analysis inside a verdict. -/
structure VerdictAnalysis where
  pro_strength : String
  contra_strength : String
  consensus_facts : List String
  disputed_points : List String
  deriving DecidableEq, Repr

/-- Metadata about the verification process. -/
structure VerdictMetadata where
  processing_time_seconds : Nat
  rounds_completed : Nat
  total_sources_checked : Nat
  deriving DecidableEq, Repr

/-- The final structured verdict. -/
structure Verdict where
  verdict : VerdictType
  confidence_score : ℚ
  summary : String
  analysis : VerdictAnalysis
  sources_used : List Source
  metadata : VerdictMetadata
  deriving DecidableEq, Repr

/-- The LangGraph state (`GraphState` TypedDict).  Keys the callers may leave
unset but which nodes read through `state.get(key, default)` are `Option`s. -/
structure GraphState where
  claim : Claim
  messages : List DebateMessage
  round_count : Nat
  verdict : Option Verdict := none
  max_iterations : Nat
  max_searches : Int
  language : Option String := none
  pro_personality : Option String := none
  contra_personality : Option String := none
  research_depth : Option Nat := none
  start_time : Option Nat := none
  deriving DecidableEq, Repr

/-! ## Search tools, from `src/tools/search_tools.py`

Each raw tool wraps an HTTP capability (spec section 6: given a query and a
result count, return a list of url/title/snippet records, or fail).  The
per-tool functions catch every HTTP-level failure (timeout, HTTP error
status such as a 429 rate limit, malformed payload: these are the
`requests.exceptions` handlers in the source) and convert it to `[]`. -/

/-- A raw search result record. -/
structure SearchResult where
  url : String
  title : String
  snippet : String
  deriving DecidableEq, Repr

/-- A failure of the underlying HTTP search capability. -/
inductive ToolFailure
  | timeout
  | rateLimit
  | malformed
  deriving DecidableEq, Repr

/-- The external collaborators of the tool layer: credential availability
booleans and one HTTP capability per named tool. -/
structure ToolEnv where
  braveKey : Bool
  googlePseApiKey : Bool
  googlePseCx : Bool
  braveHttp : String → Nat → Except ToolFailure (List SearchResult)
  ddgHttp : String → Nat → Except ToolFailure (List SearchResult)
  googlePseHttp : String → Nat → Except ToolFailure (List SearchResult)

/-- `brave_search`: skipped without credentials; HTTP failures become `[]`. -/
def brave_search (env : ToolEnv) (query : String) (count : Nat := 10) : List SearchResult :=
  if !env.braveKey then []
  else
    match env.braveHttp query count with
    | Except.ok rs => rs
    | Except.error _ => []

/-- `duckduckgo_search`: needs no credentials; HTTP failures become `[]`. -/
def duckduckgo_search (env : ToolEnv) (query : String) (count : Nat := 10) : List SearchResult :=
  match env.ddgHttp query count with
  | Except.ok rs => rs
  | Except.error _ => []

/-- `google_pse_factcheck`: skipped without both credentials; the request is
capped at 10 results; HTTP failures become `[]`. -/
def google_pse_factcheck (env : ToolEnv) (query : String) (count : Nat := 10) : List SearchResult :=
  if !(env.googlePseApiKey && env.googlePseCx) then []
  else
    match env.googlePseHttp query (min count 10) with
    | Except.ok rs => rs
    | Except.error _ => []

/-- A Python exception escaping a tool-layer call. -/
inductive PyExc
  | valueError
  | notImplementedError
  | otherError
  deriving DecidableEq, Repr

/-- Python's implicit exception propagation (the monadic bind on `Except`):
continue with the value unless the call raised, in which case the exception
propagates to the caller. -/
def pyTry {α β : Type} (x : Except PyExc α) (f : α → Except PyExc β) :
    Except PyExc β :=
  match x with
  | Except.error e => Except.error e
  | Except.ok a => f a

/-- Decidable equality on `Except`, for evaluating the development on closed
inputs. -/
instance exceptDecEq {ε α : Type} [DecidableEq ε] [DecidableEq α] :
    DecidableEq (Except ε α) := fun x y =>
  match x, y with
  | Except.ok a, Except.ok b =>
    if h : a = b then Decidable.isTrue (congrArg Except.ok h)
    else Decidable.isFalse (fun hh => h (Except.ok.inj hh))
  | Except.error a, Except.error b =>
    if h : a = b then Decidable.isTrue (congrArg Except.error h)
    else Decidable.isFalse (fun hh => h (Except.error.inj hh))
  | Except.ok _, Except.error _ => Decidable.isFalse (fun hh => Except.noConfusion hh)
  | Except.error _, Except.ok _ => Decidable.isFalse (fun hh => Except.noConfusion hh)

namespace SearchTools

/-- The unified dispatcher `search(query, tool, count)`: recognizes exactly
`"brave"`, `"duckduckgo"` and `"google_pse"`, raising `ValueError` otherwise. -/
def search (env : ToolEnv) (query : String) (tool : String := "brave")
    (count : Nat := 10) : Except PyExc (List SearchResult) :=
  if tool = "brave" then Except.ok (brave_search env query count)
  else if tool = "duckduckgo" then Except.ok (duckduckgo_search env query count)
  else if tool = "google_pse" then Except.ok (google_pse_factcheck env query count)
  else Except.error PyExc.valueError

end SearchTools

/-! ## Tool access layer, from `src/utils/tool_manager.py`

The two caches are Python `OrderedDict`s, embedded as association lists in
insertion order: the head is the oldest (least recently inserted) entry.
Assigning to an existing key updates the value in place, keeping its
position; assigning to a new key appends at the end.  Wall-clock reads
(`time.time()`) are a `now : Nat` argument. -/

/-- A cache entry: the stored value plus its insertion timestamp. -/
structure CacheEntry (α : Type) where
  value : α
  timestamp : Nat
  deriving DecidableEq, Repr

/-- An `OrderedDict` in insertion order (head oldest). -/
abbrev ODict (α : Type) := List (String × CacheEntry α)

/-- `cache[key]` lookup. -/
def odLookup {α : Type} : ODict α → String → Option (CacheEntry α)
  | [], _ => none
  | (k, e) :: rest, key => if k = key then some e else odLookup rest key

/-- `cache[key] = value`: update in place if the key is present (keeping its
position), else append at the end. -/
def odSet {α : Type} : ODict α → String → CacheEntry α → ODict α
  | [], key, e => [(key, e)]
  | (k, e') :: rest, key, e =>
    if k = key then (k, e) :: rest else (k, e') :: odSet rest key e

/-- The `ToolManager`: two independent caches and a time-to-live. -/
structure ToolManager where
  url_cache : ODict String := []
  search_cache : ODict (List SearchResult) := []
  ttl : Nat := 3600
  deriving DecidableEq, Repr

/-- `ToolManager.MAX_CACHE_SIZE`. -/
def MAX_CACHE_SIZE : Nat := 1000

/-- `ToolManager._add_to_cache`: when the cache has reached the size limit,
first evict the oldest entry (`next(iter(cache))`, the head), then assign. -/
def ToolManager.add_to_cache {α : Type} (cache : ODict α) (key : String)
    (value : CacheEntry α) : ODict α :=
  let cache := if MAX_CACHE_SIZE ≤ cache.length then cache.drop 1 else cache
  odSet cache key value

/-- The search-cache key: in the source, `sha256(f"query_tool").hexdigest()`.
The hash is injective on its input string, so the embedding keys by the input
string itself (like the source, this conflates query/tool pairs whose
`query ++ "_" ++ tool` concatenations agree). -/
def searchKey (query tool : String) : String := query ++ "_" ++ tool

/-- Outcome of a `search_web` call: the returned results, the updated manager,
and the dispatcher invocations it issued (ghost observer for the proofs). -/
structure SearchWebOut where
  results : List SearchResult
  tm : ToolManager
  invoked : List (String × String)
  deriving DecidableEq, Repr

/-- Store a search result list under `key` (timestamping it `now`). -/
def ToolManager.storeSearch (tm : ToolManager) (key : String)
    (results : List SearchResult) (now : Nat) : ToolManager :=
  { tm with search_cache := ToolManager.add_to_cache tm.search_cache key ⟨results, now⟩ }

/-- The cache-miss path of `search_web`: invoke the dispatcher; a
`NotImplementedError` is retried against `"brave"` — that retry sits inside
the `except NotImplementedError` handler, so its own failure propagates and
nothing is stored; any other failure is caught and converted to `[]`; the
obtained result list (even `[]`) is stored before returning. -/
def ToolManager.searchWebMiss
    (sdisp : String → String → Nat → Except PyExc (List SearchResult))
    (tm : ToolManager) (query tool key : String) (now : Nat) :
    Except PyExc SearchWebOut :=
  match sdisp query tool 10 with
  | Except.ok results =>
    Except.ok ⟨results, tm.storeSearch key results now, [(query, tool)]⟩
  | Except.error PyExc.notImplementedError =>
    match sdisp query "brave" 10 with
    | Except.ok results =>
      Except.ok ⟨results, tm.storeSearch key results now, [(query, tool), (query, "brave")]⟩
    | Except.error e => Except.error e
  | Except.error _ =>
    Except.ok ⟨[], tm.storeSearch key [] now, [(query, tool)]⟩

/-- `ToolManager.search_web(query, tool)`, parametric in the dispatcher the
source imports from `search_tools`: a hit (entry present and younger than the
TTL) returns the stored value without dispatching; otherwise the miss path
runs. -/
def ToolManager.search_web
    (sdisp : String → String → Nat → Except PyExc (List SearchResult))
    (tm : ToolManager) (query tool : String) (now : Nat) :
    Except PyExc SearchWebOut :=
  let key := searchKey query tool
  match odLookup tm.search_cache key with
  | some e =>
    if now - e.timestamp < tm.ttl then Except.ok ⟨e.value, tm, []⟩
    else ToolManager.searchWebMiss sdisp tm query tool key now
  | none => ToolManager.searchWebMiss sdisp tm query tool key now

/-- The repository's dispatcher as a function value (what `search_web` calls
through its `from src.tools.search_tools import search` import). -/
def SearchTools.dispatch (env : ToolEnv) :
    String → String → Nat → Except PyExc (List SearchResult) :=
  fun q t c => SearchTools.search env q t c

/-- `search_web` instantiated with the repository's actual dispatcher. -/
def ToolManager.searchWebC (env : ToolEnv) (tm : ToolManager)
    (query tool : String) (now : Nat) : Except PyExc SearchWebOut :=
  ToolManager.search_web (SearchTools.dispatch env) tm query tool now

/-- The total value of the concrete `search_web` (well defined because the
concrete dispatcher never raises `NotImplementedError`). -/
def ToolManager.searchWebRun (env : ToolEnv) (tm : ToolManager)
    (q t : String) (now : Nat) : SearchWebOut :=
  match ToolManager.searchWebC env tm q t now with
  | Except.ok out => out
  | Except.error _ => ⟨[], tm, []⟩


/-- The miss path of `get_url`: the fetch itself is a placeholder in the
source; the fetched content is stored before returning. -/
def ToolManager.getUrlMiss (tm : ToolManager) (url agent : String) (now : Nat) :
    String × ToolManager :=
  let content := "Content of " ++ url ++ " fetched by " ++ agent
  (content,
    { tm with url_cache := ToolManager.add_to_cache tm.url_cache url ⟨content, now⟩ })

/-- `ToolManager.get_url(url, agent)`. -/
def ToolManager.get_url (tm : ToolManager) (url agent : String) (now : Nat) :
    String × ToolManager :=
  match odLookup tm.url_cache url with
  | some e =>
    if now - e.timestamp < tm.ttl then (e.value, tm)
    else ToolManager.getUrlMiss tm url agent now
  | none => ToolManager.getUrlMiss tm url agent now

/-- `ToolManager.clear_cache`. -/
def ToolManager.clear_cache (tm : ToolManager) : ToolManager :=
  { tm with url_cache := [], search_cache := [] }

/-! ## Agent policy units, from `src/agents/` -/

/-- The mutable per-agent state: `BaseAgent.__init__` sets `search_count = 0`
(the llm handle, tool manager and prompt strings carry no mutable state). -/
structure AgentState where
  search_count : Nat
  deriving DecidableEq, Repr

/-- A freshly constructed agent (`BaseAgent.__init__`). -/
def BaseAgent.init : AgentState := ⟨0⟩

/-- Outcome of an agent-level `search` call. -/
structure AgentSearchOut where
  results : List SearchResult
  agent : AgentState
  tm : ToolManager
  invoked : List (String × String)
  deriving DecidableEq, Repr

/-- `BaseAgent.search(query, strategy, max_searches)`: the budget guard fires
only when `max_searches > 0`; past it the counter increments and the tiered
strategy runs against the tool manager. -/
def BaseAgent.search (env : ToolEnv) (a : AgentState) (tm : ToolManager)
    (query strategy : String) (max_searches : Int) (now : Nat) :
    Except PyExc AgentSearchOut :=
  if max_searches > 0 ∧ max_searches ≤ (a.search_count : Int) then
    Except.ok ⟨[], a, tm, []⟩
  else
    let a : AgentState := ⟨a.search_count + 1⟩
    if strategy = "fact_check_first" then
      let google_pse_available := env.googlePseApiKey && env.googlePseCx
      if google_pse_available then
        pyTry (ToolManager.searchWebC env tm query "google_pse_factcheck" now) fun o =>
          if o.results ≠ [] then
            Except.ok ⟨o.results, a, o.tm, o.invoked⟩
          else
            pyTry (ToolManager.searchWebC env o.tm query "brave" now) fun o2 =>
              Except.ok ⟨o2.results, a, o2.tm, o.invoked ++ o2.invoked⟩
      else
        pyTry (ToolManager.searchWebC env tm query "brave" now) fun o2 =>
          Except.ok ⟨o2.results, a, o2.tm, o2.invoked⟩
    else if strategy = "web_deep_dive" then
      pyTry (ToolManager.searchWebC env tm query "brave" now) fun o =>
        if max_searches ≤ 0 ∨ (a.search_count : Int) < max_searches then
          let a : AgentState := ⟨a.search_count + 1⟩
          pyTry (ToolManager.searchWebC env o.tm query "duckduckgo" now) fun o2 =>
            Except.ok ⟨o.results ++ o2.results, a, o2.tm, o.invoked ++ o2.invoked⟩
        else
          Except.ok ⟨o.results, a, o.tm, o.invoked⟩
    else
      pyTry (ToolManager.searchWebC env tm query "brave" now) fun o =>
        Except.ok ⟨o.results, a, o.tm, o.invoked⟩

/-- `ProAgent.search`: its own budget guard and increment, then the
`"institutional"` strategy (a plain `"brave"` search); any other strategy
falls through to `super().search` (which checks and increments again). -/
def ProAgent.search (env : ToolEnv) (a : AgentState) (tm : ToolManager)
    (query strategy : String) (max_searches : Int) (now : Nat) :
    Except PyExc AgentSearchOut :=
  if max_searches > 0 ∧ max_searches ≤ (a.search_count : Int) then
    Except.ok ⟨[], a, tm, []⟩
  else
    let a : AgentState := ⟨a.search_count + 1⟩
    if strategy = "institutional" then
      pyTry (ToolManager.searchWebC env tm query "brave" now) fun o =>
        Except.ok ⟨o.results, a, o.tm, o.invoked⟩
    else
      BaseAgent.search env a tm query strategy max_searches now

/-- Python's `{ r['url']: r for r in results }` dict build, one step: an
existing key keeps its position and takes the new value; a new key appends. -/
def pyDictInsert : List (String × SearchResult) → SearchResult →
    List (String × SearchResult)
  | [], r => [(r.url, r)]
  | (k, v) :: rest, r =>
    if k = r.url then (k, r) :: rest else (k, v) :: pyDictInsert rest r

/-- `{ r['url']: r for r in results }.values()`: one entry per distinct URL,
in order of first occurrence, holding the last record with that URL. -/
def dedupByUrl (results : List SearchResult) : List SearchResult :=
  (results.foldl pyDictInsert []).map Prod.snd

/-- Outcome of an agent `think` turn. -/
structure ThinkOut where
  message : DebateMessage
  agent : AgentState
  tm : ToolManager
  invoked : List (String × String)
  deriving DecidableEq, Repr

/-- `ProAgent.opening_statement`: no search calls, empty source list; the
generative call yields confidence 60, its failure the apologetic fallback
with confidence 0. -/
def ProAgent.opening_statement (llm : Option String) (_st : GraphState) :
    DebateMessage :=
  let res : String × ℚ :=
    match llm with
    | some text => (text, 60)
    | none => ("Unable to generate opening statement due to technical difficulties.", 0)
  { round := 0, agent := AgentType.PRO, message_type := MessageType.argument,
    content := res.1, sources := [], confidence := res.2 }

/-- `ProAgent.think`: depth 0 delegates to the opening statement; otherwise an
`"institutional"` search, truncation of results (2 at depth 1), source
construction from the first 1 (depth 1) or 3 results with reliability HIGH,
and a message with confidence 85 on success or 0 on generative failure. -/
def ProAgent.think (env : ToolEnv) (llm : Option String) (a : AgentState)
    (st : GraphState) (tm : ToolManager) (now : Nat) : Except PyExc ThinkOut :=
  let claim := st.claim
  let messages := st.messages
  let max_searches := st.max_searches
  let research_depth := st.research_depth.getD 1
  if research_depth = 0 then
    Except.ok ⟨ProAgent.opening_statement llm st, a, tm, []⟩
  else
    pyTry (ProAgent.search env a tm claim.core_claim "institutional" max_searches now)
      fun o =>
    let search_results := if research_depth = 1 then o.results.take 2 else o.results
    let res : String × ℚ :=
      match llm with
      | some text => (text, 7 / 10)
      | none =>
        ("Unable to generate argument due to technical difficulties. The system is experiencing issues communicating with the language model.", 0)
    let num_sources := if research_depth = 1 then 1 else 3
    let sources := (search_results.take num_sources).map fun r =>
      ({ url := r.url, title := r.title, snippet := r.snippet,
         reliability := Reliability.high, agent := some AgentType.PRO,
         timestamp := some now } : Source)
    let msg_type :=
      if messages = [] then MessageType.argument else MessageType.defense
    let confidence : ℚ := if res.2 = 0 then res.2 else 85
    Except.ok ⟨{ round := st.round_count, agent := AgentType.PRO,
                 message_type := msg_type, content := res.1, sources := sources,
                 confidence := confidence }, o.agent, o.tm, o.invoked⟩

/-- The search phase of `ContraAgent.think`: strategy selection by round and
depth.  The deep rebuttal issues two searches and joins their results; the
source runs them on a two-worker pool and joins both futures, which this
sequential composition realizes. -/
def ContraAgent.searchPhase (env : ToolEnv) (a : AgentState) (st : GraphState)
    (tm : ToolManager) (now : Nat) : Except PyExc AgentSearchOut :=
  let claim := st.claim
  let messages := st.messages
  let max_searches := st.max_searches
  let research_depth := st.research_depth.getD 1
  let is_initial_round : Bool := st.round_count == 0
  let search_query :=
    if is_initial_round then "fake news " ++ claim.core_claim
    else "contradiction " ++ claim.core_claim
  match is_initial_round, messages.getLast? with
  | false, some last_message =>
    if last_message.agent = AgentType.PRO then
      if research_depth ≥ 2 then
        let rebuttal_query := "debunk " ++ claim.core_claim
        pyTry (BaseAgent.search env a tm search_query "fact_check_first"
            max_searches now) fun o1 =>
          pyTry (BaseAgent.search env o1.agent o1.tm rebuttal_query
              "web_deep_dive" max_searches now) fun o2 =>
            Except.ok ⟨o1.results ++ o2.results, o2.agent, o2.tm,
                       o1.invoked ++ o2.invoked⟩
      else
        BaseAgent.search env a tm search_query "fact_check_first" max_searches now
    else
      BaseAgent.search env a tm search_query "fact_check_first" max_searches now
  | _, _ =>
    BaseAgent.search env a tm search_query "fact_check_first" max_searches now

/-- `ContraAgent.think`: the search phase, then URL deduplication, reliability
mapping over a known-domain list, truncation to 2 (shallow) or 5 (deep)
sources, confidence 70/30 on success (with/without sources) or 0 on
generative failure. -/
def ContraAgent.think (env : ToolEnv) (llm : Option String) (a : AgentState)
    (st : GraphState) (tm : ToolManager) (now : Nat) : Except PyExc ThinkOut :=
  let research_depth := st.research_depth.getD 1
  let is_initial_round : Bool := st.round_count == 0
  pyTry (ContraAgent.searchPhase env a st tm now) fun o =>
  let unique_results := dedupByUrl o.results
  let sources := unique_results.map fun r =>
    let rel :=
      if pyContains r.url "snopes" || pyContains r.url "factcheck"
          || pyContains r.url "bufale" then
        Reliability.high
      else Reliability.medium
    ({ url := r.url, title := r.title, snippet := r.snippet, reliability := rel,
       agent := some AgentType.CONTRA } : Source)
  let max_sources := if research_depth = 1 then 2 else 5
  let top_sources := sources.take max_sources
  let res : String × ℚ :=
    match llm with
    | some text => (text, if top_sources ≠ [] then 70 else 30)
    | none =>
      ("Unable to generate counterargument due to technical difficulties. The system is experiencing issues communicating with the language model.", 0)
  let msg_type :=
    if is_initial_round then MessageType.argument else MessageType.rebuttal
  Except.ok ⟨{ round := st.round_count, agent := AgentType.CONTRA,
               message_type := msg_type, content := res.1, sources := top_sources,
               confidence := res.2 }, o.agent, o.tm, o.invoked⟩

/-- `JudgeAgent._calculate_metadata`: elapsed time against `start_time` (the
state carries none in this repository, in which case the source falls back to
the current time and the elapsed time is 0), the round counter, and the number
of distinct source URLs across the transcript. -/
def JudgeAgent.calculate_metadata (st : GraphState) (now : Nat) : VerdictMetadata :=
  let start_time := st.start_time.getD now
  let all_sources := (((st.messages.map DebateMessage.sources).flatten).map Source.url).dedup
  { processing_time_seconds := now - start_time,
    rounds_completed := st.round_count,
    total_sources_checked := all_sources.length }

/-- `JudgeAgent.think`: on success the parsed verdict with its metadata
overwritten by `_calculate_metadata`; on any generative failure the fixed
`NON_VERIFICABILE` fallback with confidence 0 and the same metadata. -/
def JudgeAgent.think (judgeLlm : Option Verdict) (st : GraphState) (now : Nat) :
    Verdict :=
  match judgeLlm with
  | some v => { v with metadata := JudgeAgent.calculate_metadata st now }
  | none =>
    { verdict := VerdictType.NON_VERIFICABILE,
      confidence_score := 0,
      summary := "An error occurred during the evaluation process. Unable to reach a verdict.",
      analysis := { pro_strength := "N/A", contra_strength := "N/A",
                    consensus_facts := [], disputed_points := [] },
      sources_used := [],
      metadata := JudgeAgent.calculate_metadata st now }

/-! ## State machine, from `src/orchestrator/graph.py` and
`src/orchestrator/debate.py`

The graph-level environment bundles the external collaborators of spec
section 6.  `llm` is the generative capability's outcome for a call (`none`
models a raised exception), `judgeLlm` the schema-constrained variant used by
the judge, `extractor` the claim-extraction capability. -/

/-- External collaborators of a session. -/
structure Env where
  tools : ToolEnv
  llm : Option String
  judgeLlm : Option Verdict
  extractor : String → Claim
  now : Nat

/-- The state threaded by the runner: the LangGraph state, the shared
`ToolManager` singleton, plus two ghost observers for the proofs — the final
`search_count` of the agent constructed by each turn node, and every
dispatcher invocation issued. -/
structure RunState where
  st : GraphState
  tm : ToolManager
  turnSearchCounts : List Nat := []
  invoked : List (String × String) := []
  deriving Repr

/-- `extract_claim` node: invoke extraction when the core claim is missing
(empty) or identical to the raw input; otherwise pass through unchanged. -/
def extract_claim (env : Env) (st : GraphState) : GraphState :=
  if st.claim.core_claim = "" ∨ st.claim.core_claim = st.claim.raw_input then
    { st with claim := env.extractor st.claim.raw_input }
  else st

/-- `should_continue`: compare the round counter to the configured maximum
with `>=`. -/
def should_continue (st : GraphState) : String :=
  if st.round_count ≥ st.max_iterations then "end" else "continue"

/-- `pro_opening` node: a fresh `ProAgent` produces the no-research opening
statement; the node's delta sets `round_count = 1` and shallow depth. -/
def pro_opening_node (env : Env) (rs : RunState) : RunState :=
  let pro_agent := BaseAgent.init
  let message := ProAgent.opening_statement env.llm rs.st
  { rs with
    st := { rs.st with
            messages := rs.st.messages ++ [message],
            round_count := 1,
            research_depth := some 1 },
    turnSearchCounts := rs.turnSearchCounts ++ [pro_agent.search_count] }

/-- `contra_research` node: a fresh `ContraAgent` thinks against the shared
tool manager and its message is appended. -/
def contra_research_node (env : Env) (rs : RunState) : Except PyExc RunState :=
  let contra_agent := BaseAgent.init
  pyTry (ContraAgent.think env.tools env.llm contra_agent rs.st rs.tm env.now) fun o =>
    Except.ok { rs with
      st := { rs.st with messages := rs.st.messages ++ [o.message] },
      tm := o.tm,
      turnSearchCounts := rs.turnSearchCounts ++ [o.agent.search_count],
      invoked := rs.invoked ++ o.invoked }

/-- `adaptive_research_depth` node: no message yet selects shallow (1); a last
message with confidence strictly below 50 selects deep (2); otherwise
shallow (1). -/
def adaptive_research_depth (st : GraphState) : GraphState :=
  match st.messages.getLast? with
  | none => { st with research_depth := some 1 }
  | some last_msg =>
    if last_msg.confidence < 50 then { st with research_depth := some 2 }
    else { st with research_depth := some 1 }

/-- Modelled from the spec: the node functions `pro_turn` and `contra_turn`
are imported by `src/orchestrator/graph.py` from `src/orchestrator/debate.py`
but are absent from the repository sources.  Per spec section 4.1, `pro_turn`
increments the round counter by 1 (the only increment point) and then a fresh
PRO agent produces an argument or defense informed by the depth signal,
against the shared resources like the other turn nodes. -/
def pro_turn (env : Env) (rs : RunState) : Except PyExc RunState :=
  let st := { rs.st with round_count := rs.st.round_count + 1 }
  let pro_agent := BaseAgent.init
  pyTry (ProAgent.think env.tools env.llm pro_agent st rs.tm env.now) fun o =>
    Except.ok { rs with
      st := { st with messages := st.messages ++ [o.message] },
      tm := o.tm,
      turnSearchCounts := rs.turnSearchCounts ++ [o.agent.search_count],
      invoked := rs.invoked ++ o.invoked }

/-- Modelled from the spec: see `pro_turn`.  Per spec section 4.1,
`contra_turn` has a fresh CONTRA agent rebut the latest PRO message and does
not increment the round counter. -/
def contra_turn (env : Env) (rs : RunState) : Except PyExc RunState :=
  let contra_agent := BaseAgent.init
  pyTry (ContraAgent.think env.tools env.llm contra_agent rs.st rs.tm env.now) fun o =>
    Except.ok { rs with
      st := { rs.st with messages := rs.st.messages ++ [o.message] },
      tm := o.tm,
      turnSearchCounts := rs.turnSearchCounts ++ [o.agent.search_count],
      invoked := rs.invoked ++ o.invoked }

/-- `judge` node: the judge's verdict becomes the terminal state delta. -/
def judge_verdict_node (env : Env) (rs : RunState) : RunState :=
  { rs with st := { rs.st with
      verdict := some (JudgeAgent.think env.judgeLlm rs.st env.now) } }

/-- The debate cycle `adaptive_depth → pro_node → contra_node →
should_continue`, which routes back to `adaptive_depth` on `"continue"` and
to the judge on `"end"`.  The fuel argument is an upper bound on the number
of cycles; `run_session` supplies enough for the `>=` comparison to always
end the loop first. -/
def debate_loop (env : Env) : Nat → RunState → Except PyExc RunState
  | 0, rs => Except.ok rs
  | fuel + 1, rs =>
    let rs1 := { rs with st := adaptive_research_depth rs.st }
    pyTry (pro_turn env rs1) fun rs2 =>
      pyTry (contra_turn env rs2) fun rs3 =>
        if should_continue rs3.st = "end" then Except.ok rs3
        else debate_loop env fuel rs3

/-- The compiled graph applied to an initial state: `extract → pro_opening →
contra_research → (adaptive_depth → pro_node → contra_node)* → judge`. -/
def run_session (env : Env) (st0 : GraphState) (tm0 : ToolManager) :
    Except PyExc RunState :=
  let rs0 : RunState := { st := extract_claim env st0, tm := tm0 }
  let rs1 := pro_opening_node env rs0
  pyTry (contra_research_node env rs1) fun rs2 =>
    pyTry (debate_loop env (rs2.st.max_iterations + 1) rs2) fun rs3 =>
      Except.ok (judge_verdict_node env rs3)

/-- Outcome of `debate_round`. -/
structure DebateRoundOut where
  messages : List DebateMessage
  round_count : Nat
  pro_agent : AgentState
  contra_agent : AgentState
  deriving DecidableEq, Repr

/-- `debate_round` (`src/orchestrator/debate.py`): re-instantiates the llm, a
fresh `ToolManager` and fresh PRO/CONTRA agents; CONTRA rebuts, PRO defends
against a temporary state holding CONTRA's message, and the delta carries
both messages and `round_count + 1`. -/
def debate_round (env : Env) (st : GraphState) : Except PyExc DebateRoundOut :=
  let tool_manager : ToolManager := {}
  let pro_agent := BaseAgent.init
  let contra_agent := BaseAgent.init
  pyTry (ContraAgent.think env.tools env.llm contra_agent st tool_manager env.now) fun oC =>
    let temp_state := { st with messages := st.messages ++ [oC.message] }
    pyTry (ProAgent.think env.tools env.llm pro_agent temp_state oC.tm env.now) fun oP =>
      Except.ok { messages := [oP.message, oC.message],
                  round_count := st.round_count + 1,
                  pro_agent := oP.agent, contra_agent := oC.agent }

/-! ## Concrete instances (used to evaluate the development on closed inputs) -/

/-- A concrete search result. -/
def fxResult : SearchResult :=
  { url := "http://example.com/a", title := "A", snippet := "sa" }

/-- A tool environment with Brave credentials only; the Brave endpoint
returns one result. -/
def fxToolEnv : ToolEnv :=
  { braveKey := true
    googlePseApiKey := false
    googlePseCx := false
    braveHttp := fun _ _ => Except.ok [fxResult]
    ddgHttp := fun _ _ => Except.ok []
    googlePseHttp := fun _ _ => Except.ok [] }

/-- A tool environment whose Brave endpoint returns the same URL twice. -/
def fxDupToolEnv : ToolEnv :=
  { fxToolEnv with braveHttp := fun _ _ => Except.ok [fxResult, fxResult] }

/-- A tool environment with no credentials at all. -/
def fxNoKeyToolEnv : ToolEnv :=
  { braveKey := false
    googlePseApiKey := false
    googlePseCx := false
    braveHttp := fun _ _ => Except.ok []
    ddgHttp := fun _ _ => Except.ok []
    googlePseHttp := fun _ _ => Except.ok [] }

/-- A concrete structured verdict as the judge's generative call returns it. -/
def fxVerdict : Verdict :=
  { verdict := VerdictType.VERO
    confidence_score := 80
    summary := "s"
    analysis := { pro_strength := "p", contra_strength := "c",
                  consensus_facts := [], disputed_points := [] }
    sources_used := []
    metadata := { processing_time_seconds := 0, rounds_completed := 0,
                  total_sources_checked := 0 } }

/-- A fully concrete session environment with working capabilities. -/
def fxEnv : Env :=
  { tools := fxToolEnv
    llm := some "text"
    judgeLlm := some fxVerdict
    extractor := fun s => { raw_input := s, core_claim := s ++ "!" }
    now := 0 }

/-- The same environment with every generative call failing. -/
def fxEnvFail : Env :=
  { fxEnv with llm := none, judgeLlm := none }

/-- A concrete fresh initial state. -/
def fxState (n : Nat) (k : Int) : GraphState :=
  { claim := { raw_input := "X happened", core_claim := "X" }
    messages := []
    round_count := 0
    max_iterations := n
    max_searches := k }

/-- A full ordered cache holding `MAX_CACHE_SIZE` entries, the oldest keyed
`"a"` and the rest keyed `"b"`. -/
def fxFullCache : ODict (List SearchResult) :=
  ("a", ⟨[], 0⟩) :: List.replicate 999 ("b", ⟨[], 0⟩)

/-- A tool environment whose every HTTP capability fails. -/
def fxErrToolEnv : ToolEnv :=
  { braveKey := true
    googlePseApiKey := true
    googlePseCx := true
    braveHttp := fun _ _ => Except.error ToolFailure.timeout
    ddgHttp := fun _ _ => Except.error ToolFailure.rateLimit
    googlePseHttp := fun _ _ => Except.error ToolFailure.malformed }

/-- A dispatcher raising `NotImplementedError` for every tool but `"brave"`. -/
def fxNieDisp : String → String → Nat → Except PyExc (List SearchResult) :=
  fun _ t _ =>
    if t = "brave" then Except.ok [fxResult]
    else Except.error PyExc.notImplementedError

/-- The outcome of a concrete cache-missing `search_web` call. -/
def fxWebOut : SearchWebOut :=
  { results := [fxResult]
    tm := { url_cache := []
            search_cache := [("q_brave", { value := [fxResult], timestamp := 0 })]
            ttl := 3600 }
    invoked := [("q", "brave")] }

/-- The outcome of a concrete CONTRA turn in a credential-less environment. -/
def fxContraOut : ThinkOut :=
  { message := { round := 0, agent := AgentType.CONTRA
                 message_type := MessageType.argument
                 content := "text", sources := [], confidence := 30 }
    agent := { search_count := 1 }
    tm := { url_cache := []
            search_cache := [("fake news X_brave", { value := [], timestamp := 0 })]
            ttl := 3600 }
    invoked := [("fake news X", "brave")] }

/-! ## Helper lemmas: exception propagation -/

theorem pyTry_ok {α β : Type} (a : α) (f : α → Except PyExc β) :
    pyTry (Except.ok a) f = f a := rfl

theorem pyTry_error {α β : Type} (e : PyExc) (f : α → Except PyExc β) :
    pyTry (Except.error e) f = Except.error e := rfl

theorem pyTry_eq_ok {α β : Type} {x : Except PyExc α} {a : α}
    (h : x = Except.ok a) (f : α → Except PyExc β) : pyTry x f = f a := by
  rw [h, pyTry_ok]

/-! ## Helper lemmas: ordered caches -/

theorem odSet_length_le {α : Type} (c : ODict α) (k : String) (v : CacheEntry α) :
    (odSet c k v).length ≤ c.length + 1 := by
  induction c with
  | nil => simp [odSet]
  | cons hd tl ih =>
    obtain ⟨k', v'⟩ := hd
    by_cases h : k' = k
    · simp [odSet, h]
    · simp only [odSet, if_neg h, List.length_cons]
      omega

theorem odLookup_odSet_self {α : Type} (c : ODict α) (k : String) (v : CacheEntry α) :
    odLookup (odSet c k v) k = some v := by
  induction c with
  | nil => simp [odSet, odLookup]
  | cons hd tl ih =>
    obtain ⟨k', v'⟩ := hd
    by_cases h : k' = k
    · simp [odSet, odLookup, h]
    · simp [odSet, odLookup, h, ih]

theorem odLookup_odSet_ne {α : Type} (c : ODict α) (k k' : String)
    (v : CacheEntry α) (h : k' ≠ k) :
    odLookup (odSet c k v) k' = odLookup c k' := by
  induction c with
  | nil => simp only [odSet, odLookup, if_neg (Ne.symm h)]
  | cons hd tl ih =>
    obtain ⟨k'', v''⟩ := hd
    by_cases hkk : k'' = k
    · subst hkk
      simp only [odSet, if_pos rfl, odLookup, if_neg (Ne.symm h)]
    · simp only [odSet, if_neg hkk, odLookup, ih]

theorem odLookup_eq_none {α : Type} (c : ODict α) (key : String)
    (h : key ∉ c.map Prod.fst) : odLookup c key = none := by
  induction c with
  | nil => simp [odLookup]
  | cons hd tl ih =>
    obtain ⟨k', v'⟩ := hd
    simp only [List.map_cons, List.mem_cons] at h
    push_neg at h
    simp only [odLookup, if_neg (Ne.symm h.1)]
    exact ih h.2

theorem add_to_cache_length_le {α : Type} (c : ODict α) (k : String)
    (v : CacheEntry α) (h : c.length ≤ MAX_CACHE_SIZE) :
    (ToolManager.add_to_cache c k v).length ≤ MAX_CACHE_SIZE := by
  unfold ToolManager.add_to_cache
  by_cases hf : MAX_CACHE_SIZE ≤ c.length
  · simp only [if_pos hf]
    have h1 := odSet_length_le (c.drop 1) k v
    have h2 : (c.drop 1).length = c.length - 1 := by simp
    have h3 : 0 < MAX_CACHE_SIZE := by norm_num [MAX_CACHE_SIZE]
    omega
  · simp only [if_neg hf]
    have h1 := odSet_length_le c k v
    omega

/-! ## Helper lemmas: the dispatcher and `search_web` -/

theorem search_ne_nie (env : ToolEnv) (q t : String) (c : Nat) :
    SearchTools.search env q t c ≠ Except.error PyExc.notImplementedError := by
  unfold SearchTools.search
  split_ifs <;> simp

/-- Definitional unfolding of `searchWebMiss`, for rewriting. -/
theorem searchWebMiss_eq
    (sdisp : String → String → Nat → Except PyExc (List SearchResult))
    (tm : ToolManager) (q t key : String) (now : Nat) :
    ToolManager.searchWebMiss sdisp tm q t key now =
      match sdisp q t 10 with
      | Except.ok results =>
        Except.ok ⟨results, tm.storeSearch key results now, [(q, t)]⟩
      | Except.error PyExc.notImplementedError =>
        match sdisp q "brave" 10 with
        | Except.ok results =>
          Except.ok ⟨results, tm.storeSearch key results now, [(q, t), (q, "brave")]⟩
        | Except.error e => Except.error e
      | Except.error _ =>
        Except.ok ⟨[], tm.storeSearch key [] now, [(q, t)]⟩ := rfl

/-- Definitional unfolding of `search_web`, for rewriting. -/
theorem search_web_eq
    (sdisp : String → String → Nat → Except PyExc (List SearchResult))
    (tm : ToolManager) (q t : String) (now : Nat) :
    ToolManager.search_web sdisp tm q t now =
      match odLookup tm.search_cache (searchKey q t) with
      | some e =>
        if now - e.timestamp < tm.ttl then Except.ok ⟨e.value, tm, []⟩
        else ToolManager.searchWebMiss sdisp tm q t (searchKey q t) now
      | none => ToolManager.searchWebMiss sdisp tm q t (searchKey q t) now := rfl

theorem searchWebMiss_ne_error_of
    (sdisp : String → String → Nat → Except PyExc (List SearchResult))
    (hnie : ∀ q t c, sdisp q t c ≠ Except.error PyExc.notImplementedError)
    (tm : ToolManager) (q t key : String) (now : Nat) (e : PyExc) :
    ToolManager.searchWebMiss sdisp tm q t key now ≠ Except.error e := by
  rw [searchWebMiss_eq]
  cases hd : sdisp q t 10 with
  | ok rs => simp
  | error e' =>
    cases e' with
    | notImplementedError => exact absurd hd (hnie q t 10)
    | valueError => simp
    | otherError => simp

theorem search_web_ne_error_of
    (sdisp : String → String → Nat → Except PyExc (List SearchResult))
    (hnie : ∀ q t c, sdisp q t c ≠ Except.error PyExc.notImplementedError)
    (tm : ToolManager) (q t : String) (now : Nat) (e : PyExc) :
    ToolManager.search_web sdisp tm q t now ≠ Except.error e := by
  rw [search_web_eq]
  cases hl : odLookup tm.search_cache (searchKey q t) with
  | some entry =>
    by_cases hf : now - entry.timestamp < tm.ttl
    · simp [hf]
    · simp only [if_neg hf]
      exact searchWebMiss_ne_error_of sdisp hnie tm q t _ now e
  | none => exact searchWebMiss_ne_error_of sdisp hnie tm q t _ now e

theorem dispatch_eq (env : ToolEnv) (q t : String) (c : Nat) :
    SearchTools.dispatch env q t c = SearchTools.search env q t c := rfl

theorem searchWebC_ne_error (env : ToolEnv) (tm : ToolManager) (q t : String)
    (now : Nat) (e : PyExc) :
    ToolManager.searchWebC env tm q t now ≠ Except.error e :=
  search_web_ne_error_of _ (fun q' t' c' => search_ne_nie env q' t' c') tm q t now e

theorem searchWebC_eq_run (env : ToolEnv) (tm : ToolManager) (q t : String)
    (now : Nat) :
    ToolManager.searchWebC env tm q t now =
      Except.ok (ToolManager.searchWebRun env tm q t now) := by
  cases h : ToolManager.searchWebC env tm q t now with
  | ok out => simp [ToolManager.searchWebRun, h]
  | error e => exact absurd h (searchWebC_ne_error env tm q t now e)

theorem searchWebC_hit (env : ToolEnv) (tm : ToolManager) (q t : String)
    (now : Nat) (entry : CacheEntry (List SearchResult))
    (hl : odLookup tm.search_cache (searchKey q t) = some entry)
    (hf : now - entry.timestamp < tm.ttl) :
    ToolManager.searchWebC env tm q t now = Except.ok ⟨entry.value, tm, []⟩ := by
  rw [ToolManager.searchWebC, search_web_eq, hl]
  simp only [if_pos hf]

theorem searchWebC_miss (env : ToolEnv) (tm : ToolManager) (q t : String)
    (now : Nat)
    (hmiss : ∀ entry, odLookup tm.search_cache (searchKey q t) = some entry →
      tm.ttl ≤ now - entry.timestamp) :
    ∃ out, ToolManager.searchWebC env tm q t now = Except.ok out ∧
      out.tm = tm.storeSearch (searchKey q t) out.results now ∧
      out.invoked = [(q, t)] := by
  have hrun : ∃ out, ToolManager.searchWebMiss
      (SearchTools.dispatch env) tm q t (searchKey q t) now =
      Except.ok out ∧ out.tm = tm.storeSearch (searchKey q t) out.results now ∧
      out.invoked = [(q, t)] := by
    rw [searchWebMiss_eq, dispatch_eq]
    cases hd : SearchTools.search env q t 10 with
    | ok rs => exact ⟨_, rfl, rfl, rfl⟩
    | error e' =>
      cases e' with
      | notImplementedError => exact absurd hd (search_ne_nie env q t 10)
      | valueError => exact ⟨_, rfl, rfl, rfl⟩
      | otherError => exact ⟨_, rfl, rfl, rfl⟩
  rw [ToolManager.searchWebC, search_web_eq]
  cases hl : odLookup tm.search_cache (searchKey q t) with
  | some entry =>
    have := hmiss entry hl
    have hnf : ¬(now - entry.timestamp < tm.ttl) := by omega
    simp only [if_neg hnf]
    exact hrun
  | none => exact hrun

theorem search_web_tm_shape
    (sdisp : String → String → Nat → Except PyExc (List SearchResult))
    (tm : ToolManager) (q t : String) (now : Nat) (out : SearchWebOut)
    (h : ToolManager.search_web sdisp tm q t now = Except.ok out) :
    out.tm = tm ∨
      ∃ rs, out.tm = tm.storeSearch (searchKey q t) rs now := by
  rw [search_web_eq] at h
  have hmiss : ∀ (h' : ToolManager.searchWebMiss sdisp tm q t (searchKey q t) now
      = Except.ok out), out.tm = tm ∨
      ∃ rs, out.tm = tm.storeSearch (searchKey q t) rs now := by
    intro h'
    rw [searchWebMiss_eq] at h'
    cases hd : sdisp q t 10 with
    | ok rs =>
      rw [hd] at h'
      cases h'
      exact Or.inr ⟨rs, rfl⟩
    | error e' =>
      rw [hd] at h'
      cases e' with
      | notImplementedError =>
        cases hb : sdisp q "brave" 10 with
        | ok rs =>
          rw [hb] at h'
          cases h'
          exact Or.inr ⟨rs, rfl⟩
        | error e2 =>
          rw [hb] at h'
          cases h'
      | valueError =>
        cases h'
        exact Or.inr ⟨[], rfl⟩
      | otherError =>
        cases h'
        exact Or.inr ⟨[], rfl⟩
  cases hl : odLookup tm.search_cache (searchKey q t) with
  | some entry =>
    rw [hl] at h
    by_cases hf : now - entry.timestamp < tm.ttl
    · simp only [if_pos hf] at h
      cases h
      exact Or.inl rfl
    · simp only [if_neg hf] at h
      exact hmiss h
  | none =>
    rw [hl] at h
    exact hmiss h

theorem storeSearch_ttl (tm : ToolManager) (key : String)
    (rs : List SearchResult) (now : Nat) :
    (tm.storeSearch key rs now).ttl = tm.ttl := rfl

theorem storeSearch_url_cache (tm : ToolManager) (key : String)
    (rs : List SearchResult) (now : Nat) :
    (tm.storeSearch key rs now).url_cache = tm.url_cache := rfl

theorem search_web_tm_bound
    (sdisp : String → String → Nat → Except PyExc (List SearchResult))
    (tm : ToolManager) (q t : String) (now : Nat) (out : SearchWebOut)
    (h : ToolManager.search_web sdisp tm q t now = Except.ok out)
    (hb : tm.search_cache.length ≤ MAX_CACHE_SIZE) :
    out.tm.search_cache.length ≤ MAX_CACHE_SIZE ∧
      out.tm.url_cache = tm.url_cache ∧ out.tm.ttl = tm.ttl := by
  rcases search_web_tm_shape sdisp tm q t now out h with h1 | ⟨rs, h1⟩
  · rw [h1]
    exact ⟨hb, rfl, rfl⟩
  · rw [h1]
    exact ⟨add_to_cache_length_le _ _ _ hb, rfl, rfl⟩

/-! ## Helper lemmas: agent-level search and think -/

theorem base_search_blocked (env : ToolEnv) (a : AgentState) (tm : ToolManager)
    (q s : String) (k : Int) (now : Nat) (hk : 0 < k)
    (hc : k ≤ (a.search_count : Int)) :
    BaseAgent.search env a tm q s k now = Except.ok ⟨[], a, tm, []⟩ := by
  rw [BaseAgent.search, if_pos ⟨hk, hc⟩]

theorem pro_search_blocked (env : ToolEnv) (a : AgentState) (tm : ToolManager)
    (q s : String) (k : Int) (now : Nat) (hk : 0 < k)
    (hc : k ≤ (a.search_count : Int)) :
    ProAgent.search env a tm q s k now = Except.ok ⟨[], a, tm, []⟩ := by
  rw [ProAgent.search, if_pos ⟨hk, hc⟩]

theorem base_search_ok (env : ToolEnv) (a : AgentState) (tm : ToolManager)
    (q s : String) (k : Int) (now : Nat) :
    ∃ o, BaseAgent.search env a tm q s k now = Except.ok o := by
  simp only [BaseAgent.search, searchWebC_eq_run, pyTry_ok]
  split_ifs <;> exact ⟨_, rfl⟩

theorem pro_search_ok (env : ToolEnv) (a : AgentState) (tm : ToolManager)
    (q s : String) (k : Int) (now : Nat) :
    ∃ o, ProAgent.search env a tm q s k now = Except.ok o := by
  simp only [ProAgent.search, searchWebC_eq_run, pyTry_ok]
  split_ifs
  · exact ⟨_, rfl⟩
  · exact ⟨_, rfl⟩
  · exact base_search_ok env _ tm q s k now

theorem base_search_count_le (env : ToolEnv) (a : AgentState) (tm : ToolManager)
    (q s : String) (k : Int) (now : Nat) (o : AgentSearchOut) (hk : 0 < k)
    (hc : (a.search_count : Int) ≤ k)
    (h : BaseAgent.search env a tm q s k now = Except.ok o) :
    (o.agent.search_count : Int) ≤ k := by
  simp only [BaseAgent.search, searchWebC_eq_run, pyTry_ok] at h
  split_ifs at h with h1 h2 h3 h4 h5 <;>
    (cases h; simp only [AgentSearchOut.agent]) <;> push_cast <;> omega

theorem pro_search_count_le (env : ToolEnv) (a : AgentState) (tm : ToolManager)
    (q s : String) (k : Int) (now : Nat) (o : AgentSearchOut) (hk : 0 < k)
    (hc : (a.search_count : Int) ≤ k)
    (h : ProAgent.search env a tm q s k now = Except.ok o) :
    (o.agent.search_count : Int) ≤ k := by
  simp only [ProAgent.search, searchWebC_eq_run, pyTry_ok] at h
  split_ifs at h with h1 h2
  · cases h
    exact hc
  · cases h
    simp only [AgentSearchOut.agent]
    push_cast
    omega
  · have hc1 : ((⟨a.search_count + 1⟩ : AgentState).search_count : Int) ≤ k := by
      simp only [AgentState.search_count]
      push_cast
      omega
    exact base_search_count_le env _ tm q s k now o hk hc1 h

theorem pro_think_ok (env : ToolEnv) (llm : Option String) (a : AgentState)
    (st : GraphState) (tm : ToolManager) (now : Nat) :
    ∃ o, ProAgent.think env llm a st tm now = Except.ok o ∧
      o.message.agent = AgentType.PRO := by
  by_cases h : st.research_depth.getD 1 = 0
  · simp only [ProAgent.think, if_pos h]
    exact ⟨_, rfl, rfl⟩
  · simp only [ProAgent.think, if_neg h]
    obtain ⟨o, ho⟩ := pro_search_ok env a tm st.claim.core_claim "institutional"
      st.max_searches now
    rw [pyTry_eq_ok ho]
    exact ⟨_, rfl, rfl⟩

theorem contra_searchPhase_ok (env : ToolEnv) (a : AgentState)
    (st : GraphState) (tm : ToolManager) (now : Nat) :
    ∃ o, ContraAgent.searchPhase env a st tm now = Except.ok o := by
  cases hio : (st.round_count == 0 : Bool) with
  | true =>
    cases hml : st.messages.getLast? with
    | none =>
      simp only [ContraAgent.searchPhase, hio, hml]
      exact base_search_ok env a tm _ "fact_check_first" st.max_searches now
    | some m =>
      simp only [ContraAgent.searchPhase, hio, hml]
      exact base_search_ok env a tm _ "fact_check_first" st.max_searches now
  | false =>
    cases hml : st.messages.getLast? with
    | none =>
      simp only [ContraAgent.searchPhase, hio, hml, Bool.false_eq_true, if_false]
      exact base_search_ok env a tm _ "fact_check_first" st.max_searches now
    | some m =>
      simp only [ContraAgent.searchPhase, hio, hml, Bool.false_eq_true, if_false]
      by_cases hP : m.agent = AgentType.PRO
      · by_cases hd : st.research_depth.getD 1 ≥ 2
        · simp only [if_pos hP, if_pos hd]
          obtain ⟨o1, ho1⟩ := base_search_ok env a tm
            ("contradiction " ++ st.claim.core_claim) "fact_check_first"
            st.max_searches now
          rw [pyTry_eq_ok ho1]
          obtain ⟨o2, ho2⟩ := base_search_ok env o1.agent o1.tm
            ("debunk " ++ st.claim.core_claim) "web_deep_dive" st.max_searches now
          rw [pyTry_eq_ok ho2]
          exact ⟨_, rfl⟩
        · simp only [if_pos hP, if_neg hd]
          exact base_search_ok env a tm _ "fact_check_first" st.max_searches now
      · simp only [if_neg hP]
        exact base_search_ok env a tm _ "fact_check_first" st.max_searches now

theorem contra_think_ok (env : ToolEnv) (llm : Option String) (a : AgentState)
    (st : GraphState) (tm : ToolManager) (now : Nat) :
    ∃ o, ContraAgent.think env llm a st tm now = Except.ok o ∧
      o.message.agent = AgentType.CONTRA := by
  simp only [ContraAgent.think]
  obtain ⟨o, ho⟩ := contra_searchPhase_ok env a st tm now
  rw [pyTry_eq_ok ho]
  exact ⟨_, rfl, rfl⟩

theorem contra_searchPhase_count_le (env : ToolEnv) (a : AgentState)
    (st : GraphState) (tm : ToolManager) (now : Nat) (o : AgentSearchOut)
    (hk : 0 < st.max_searches)
    (hc : (a.search_count : Int) ≤ st.max_searches)
    (h : ContraAgent.searchPhase env a st tm now = Except.ok o) :
    (o.agent.search_count : Int) ≤ st.max_searches := by
  cases hio : (st.round_count == 0 : Bool) with
  | true =>
    cases hml : st.messages.getLast? with
    | none =>
      simp only [ContraAgent.searchPhase, hio, hml] at h
      exact base_search_count_le env a tm _ _ _ now o hk hc h
    | some m =>
      simp only [ContraAgent.searchPhase, hio, hml] at h
      exact base_search_count_le env a tm _ _ _ now o hk hc h
  | false =>
    cases hml : st.messages.getLast? with
    | none =>
      simp only [ContraAgent.searchPhase, hio, hml, Bool.false_eq_true, if_false] at h
      exact base_search_count_le env a tm _ _ _ now o hk hc h
    | some m =>
      simp only [ContraAgent.searchPhase, hio, hml, Bool.false_eq_true, if_false] at h
      by_cases hP : m.agent = AgentType.PRO
      · by_cases hd : st.research_depth.getD 1 ≥ 2
        · simp only [if_pos hP, if_pos hd] at h
          obtain ⟨o1, ho1⟩ := base_search_ok env a tm
            ("contradiction " ++ st.claim.core_claim) "fact_check_first"
            st.max_searches now
          rw [pyTry_eq_ok ho1] at h
          obtain ⟨o2, ho2⟩ := base_search_ok env o1.agent o1.tm
            ("debunk " ++ st.claim.core_claim) "web_deep_dive" st.max_searches now
          rw [pyTry_eq_ok ho2] at h
          cases h
          exact base_search_count_le env o1.agent o1.tm _ _ _ now o2 hk
            (base_search_count_le env a tm _ _ _ now o1 hk hc ho1) ho2
        · simp only [if_pos hP, if_neg hd] at h
          exact base_search_count_le env a tm _ _ _ now o hk hc h
      · simp only [if_neg hP] at h
        exact base_search_count_le env a tm _ _ _ now o hk hc h

theorem contra_think_count_le (env : ToolEnv) (llm : Option String)
    (a : AgentState) (st : GraphState) (tm : ToolManager) (now : Nat)
    (o : ThinkOut) (hk : 0 < st.max_searches)
    (hc : (a.search_count : Int) ≤ st.max_searches)
    (h : ContraAgent.think env llm a st tm now = Except.ok o) :
    (o.agent.search_count : Int) ≤ st.max_searches := by
  simp only [ContraAgent.think] at h
  obtain ⟨os, hos⟩ := contra_searchPhase_ok env a st tm now
  rw [pyTry_eq_ok hos] at h
  cases h
  exact contra_searchPhase_count_le env a st tm now os hk hc hos

theorem pro_think_count_le (env : ToolEnv) (llm : Option String)
    (a : AgentState) (st : GraphState) (tm : ToolManager) (now : Nat)
    (o : ThinkOut) (hk : 0 < st.max_searches)
    (hc : (a.search_count : Int) ≤ st.max_searches)
    (h : ProAgent.think env llm a st tm now = Except.ok o) :
    (o.agent.search_count : Int) ≤ st.max_searches := by
  by_cases hd : st.research_depth.getD 1 = 0
  · simp only [ProAgent.think, if_pos hd] at h
    cases h
    exact hc
  · simp only [ProAgent.think, if_neg hd] at h
    obtain ⟨os, hos⟩ := pro_search_ok env a tm st.claim.core_claim "institutional"
      st.max_searches now
    rw [pyTry_eq_ok hos] at h
    cases h
    exact pro_search_count_le env a tm _ _ _ now os hk hc hos

/-! ## Helper lemmas: graph nodes, the loop and the session -/

theorem adaptive_fields (st : GraphState) :
    (adaptive_research_depth st).messages = st.messages ∧
    (adaptive_research_depth st).round_count = st.round_count ∧
    (adaptive_research_depth st).max_iterations = st.max_iterations ∧
    (adaptive_research_depth st).max_searches = st.max_searches ∧
    (adaptive_research_depth st).claim = st.claim ∧
    (adaptive_research_depth st).start_time = st.start_time := by
  rcases hl : st.messages.getLast? with _ | m <;>
    simp only [adaptive_research_depth, hl]
  · simp
  · split_ifs <;> simp

theorem pro_turn_step (env : Env) (rs : RunState) :
    ∃ rs', pro_turn env rs = Except.ok rs' ∧
      rs'.st.round_count = rs.st.round_count + 1 ∧
      (∃ m, m.agent = AgentType.PRO ∧
        rs'.st.messages = rs.st.messages ++ [m]) ∧
      rs'.st.max_iterations = rs.st.max_iterations ∧
      rs'.st.max_searches = rs.st.max_searches ∧
      rs'.st.claim = rs.st.claim ∧
      rs'.st.start_time = rs.st.start_time ∧
      (∃ c : Nat, rs'.turnSearchCounts = rs.turnSearchCounts ++ [c] ∧
        (0 < rs.st.max_searches → (c : Int) ≤ rs.st.max_searches)) := by
  obtain ⟨o, ho, hagent⟩ := pro_think_ok env.tools env.llm BaseAgent.init
    { rs.st with round_count := rs.st.round_count + 1 } rs.tm env.now
  simp only [pro_turn]
  rw [pyTry_eq_ok ho]
  refine ⟨_, rfl, rfl, ⟨o.message, hagent, rfl⟩, rfl, rfl, rfl, rfl,
    ⟨o.agent.search_count, rfl, fun hk => ?_⟩⟩
  exact pro_think_count_le env.tools env.llm BaseAgent.init
    { rs.st with round_count := rs.st.round_count + 1 } rs.tm env.now o hk
    (by simp only [BaseAgent.init]; omega) ho

theorem contra_turn_step (env : Env) (rs : RunState) :
    ∃ rs', contra_turn env rs = Except.ok rs' ∧
      rs'.st.round_count = rs.st.round_count ∧
      (∃ m, m.agent = AgentType.CONTRA ∧
        rs'.st.messages = rs.st.messages ++ [m]) ∧
      rs'.st.max_iterations = rs.st.max_iterations ∧
      rs'.st.max_searches = rs.st.max_searches ∧
      rs'.st.claim = rs.st.claim ∧
      rs'.st.start_time = rs.st.start_time ∧
      (∃ c : Nat, rs'.turnSearchCounts = rs.turnSearchCounts ++ [c] ∧
        (0 < rs.st.max_searches → (c : Int) ≤ rs.st.max_searches)) := by
  obtain ⟨o, ho, hagent⟩ := contra_think_ok env.tools env.llm BaseAgent.init
    rs.st rs.tm env.now
  simp only [contra_turn]
  rw [pyTry_eq_ok ho]
  refine ⟨_, rfl, rfl, ⟨o.message, hagent, rfl⟩, rfl, rfl, rfl, rfl,
    ⟨o.agent.search_count, rfl, fun hk => ?_⟩⟩
  exact contra_think_count_le env.tools env.llm BaseAgent.init rs.st rs.tm env.now o hk
    (by simp only [BaseAgent.init]; omega) ho

theorem contra_research_step (env : Env) (rs : RunState) :
    ∃ rs', contra_research_node env rs = Except.ok rs' ∧
      rs'.st.round_count = rs.st.round_count ∧
      (∃ m, m.agent = AgentType.CONTRA ∧
        rs'.st.messages = rs.st.messages ++ [m]) ∧
      rs'.st.max_iterations = rs.st.max_iterations ∧
      rs'.st.max_searches = rs.st.max_searches ∧
      rs'.st.claim = rs.st.claim ∧
      rs'.st.start_time = rs.st.start_time ∧
      (∃ c : Nat, rs'.turnSearchCounts = rs.turnSearchCounts ++ [c] ∧
        (0 < rs.st.max_searches → (c : Int) ≤ rs.st.max_searches)) := by
  obtain ⟨o, ho, hagent⟩ := contra_think_ok env.tools env.llm BaseAgent.init
    rs.st rs.tm env.now
  simp only [contra_research_node]
  rw [pyTry_eq_ok ho]
  refine ⟨_, rfl, rfl, ⟨o.message, hagent, rfl⟩, rfl, rfl, rfl, rfl,
    ⟨o.agent.search_count, rfl, fun hk => ?_⟩⟩
  exact contra_think_count_le env.tools env.llm BaseAgent.init rs.st rs.tm env.now o hk
    (by simp only [BaseAgent.init]; omega) ho

theorem should_continue_end_iff (st : GraphState) :
    should_continue st = "end" ↔ st.max_iterations ≤ st.round_count := by
  unfold should_continue
  split_ifs with h
  · simpa using h
  · constructor
    · intro hc
      cases (by decide : ("continue" : String) ≠ "end") hc
    · intro hle
      exact absurd hle h

theorem debate_loop_shape (env : Env) : ∀ (fuel : Nat) (rs : RunState),
    rs.st.max_iterations - rs.st.round_count < fuel →
    ∃ rs', debate_loop env fuel rs = Except.ok rs' ∧
      rs'.st.round_count = max rs.st.max_iterations (rs.st.round_count + 1) ∧
      (∃ pairs : List DebateMessage,
        rs'.st.messages = rs.st.messages ++ pairs ∧
        pairs.map DebateMessage.agent =
          (List.replicate (rs'.st.round_count - rs.st.round_count)
            [AgentType.PRO, AgentType.CONTRA]).flatten) ∧
      rs'.st.max_iterations = rs.st.max_iterations ∧
      rs'.st.max_searches = rs.st.max_searches ∧
      rs'.st.claim = rs.st.claim ∧
      rs'.st.start_time = rs.st.start_time ∧
      (∃ cs : List Nat, rs'.turnSearchCounts = rs.turnSearchCounts ++ cs ∧
        (0 < rs.st.max_searches → ∀ c ∈ cs, (c : Int) ≤ rs.st.max_searches)) := by
  intro fuel
  induction fuel with
  | zero =>
    intro rs h
    omega
  | succ fuel ih =>
    intro rs hfuel
    obtain ⟨hm1, hr1, hmi1, hms1, hcl1, hst1⟩ := adaptive_fields rs.st
    obtain ⟨rs2, h2, hr2, ⟨mP, hmP, hmsg2⟩, hmi2, hms2, hcl2, hst2, cP, hc2, hcb2⟩ :=
      pro_turn_step env { rs with st := adaptive_research_depth rs.st }
    obtain ⟨rs3, h3, hr3, ⟨mC, hmC, hmsg3⟩, hmi3, hms3, hcl3, hst3, cC, hc3, hcb3⟩ :=
      contra_turn_step env rs2
    have hround3 : rs3.st.round_count = rs.st.round_count + 1 := by
      rw [hr3, hr2]
      simp only []
      rw [hr1]
    have hmax3 : rs3.st.max_iterations = rs.st.max_iterations := by
      rw [hmi3, hmi2]
      simpa using hmi1
    have hmsearch2 : rs2.st.max_searches = rs.st.max_searches := by
      rw [hms2]
      simpa using hms1
    have hmsearch3 : rs3.st.max_searches = rs.st.max_searches := by
      rw [hms3, hmsearch2]
    have hclaim3 : rs3.st.claim = rs.st.claim := by
      rw [hcl3, hcl2]
      simpa using hcl1
    have hstart3 : rs3.st.start_time = rs.st.start_time := by
      rw [hst3, hst2]
      simpa using hst1
    have hmsgs3 : rs3.st.messages = rs.st.messages ++ [mP, mC] := by
      rw [hmsg3, hmsg2]
      have : ({ rs with st := adaptive_research_depth rs.st } : RunState).st.messages
          = rs.st.messages := hm1
      rw [this]
      simp
    have hcounts3 : rs3.turnSearchCounts = rs.turnSearchCounts ++ [cP, cC] := by
      rw [hc3, hc2]
      simp
    simp only [debate_loop]
    rw [pyTry_eq_ok h2, pyTry_eq_ok h3]
    by_cases hend : should_continue rs3.st = "end"
    · rw [if_pos hend]
      rw [should_continue_end_iff] at hend
      refine ⟨rs3, rfl, ?_, ⟨[mP, mC], hmsgs3, ?_⟩, hmax3, hmsearch3, hclaim3,
        hstart3, ⟨[cP, cC], hcounts3, ?_⟩⟩
      · omega
      · have hdiff : rs3.st.round_count - rs.st.round_count = 1 := by omega
        rw [hdiff]
        simp [hmP, hmC]
      · intro hk c hc
        simp only [List.mem_cons, List.not_mem_nil, or_false] at hc
        rcases hc with rfl | rfl
        · have := hcb2 (by simpa [hms1] using hk)
          simpa [hms1] using this
        · have := hcb3 (by rw [hmsearch2]; exact hk)
          rwa [hmsearch2] at this
    · rw [if_neg hend]
      rw [should_continue_end_iff] at hend
      push_neg at hend
      rw [hround3, hmax3] at hend
      have hcond : rs3.st.max_iterations - rs3.st.round_count < fuel := by
        rw [hround3, hmax3]
        omega
      obtain ⟨rs', h', hr', ⟨pairs', hp1', hp2'⟩, hmi', hms', hcl', hst',
        cs', hcs', hcsb'⟩ := ih rs3 hcond
      have hroundF : rs'.st.round_count = rs.st.max_iterations := by
        rw [hr', hround3, hmax3]
        omega
      refine ⟨rs', h', ?_, ⟨mP :: mC :: pairs', ?_, ?_⟩, ?_, ?_, ?_, ?_,
        ⟨cP :: cC :: cs', ?_, ?_⟩⟩
      · rw [hroundF]
        omega
      · rw [hp1', hmsgs3]
        simp
      · have hn : rs'.st.round_count - rs.st.round_count =
            (rs'.st.round_count - rs3.st.round_count) + 1 := by
          rw [hroundF, hround3]
          omega
        rw [hn, List.replicate_succ, List.flatten_cons]
        simp [hmP, hmC, hp2']
      · rw [hmi', hmax3]
      · rw [hms', hmsearch3]
      · rw [hcl', hclaim3]
      · rw [hst', hstart3]
      · rw [hcs', hcounts3]
        simp
      · intro hk c hc
        have hk3 : 0 < rs3.st.max_searches := by rw [hmsearch3]; exact hk
        simp only [List.mem_cons] at hc
        rcases hc with rfl | rfl | hc
        · have := hcb2 (by simpa [hms1] using hk)
          simpa [hms1] using this
        · have := hcb3 (by rw [hmsearch2]; exact hk)
          rwa [hmsearch2] at this
        · have := hcsb' hk3 c hc
          rw [hmsearch3] at this
          exact this

theorem extract_claim_fields (env : Env) (st : GraphState) :
    (extract_claim env st).messages = st.messages ∧
    (extract_claim env st).round_count = st.round_count ∧
    (extract_claim env st).max_iterations = st.max_iterations ∧
    (extract_claim env st).max_searches = st.max_searches ∧
    (extract_claim env st).start_time = st.start_time := by
  unfold extract_claim
  split_ifs <;> exact ⟨rfl, rfl, rfl, rfl, rfl⟩

theorem flatten_replicate_length {α : Type} (n : Nat) (l : List α) :
    ((List.replicate n l).flatten).length = n * l.length := by
  induction n with
  | zero => simp
  | succ n ih =>
    rw [List.replicate_succ, List.flatten_cons]
    simp [ih, Nat.succ_mul, Nat.add_comm]

theorem run_session_shape (env : Env) (st0 : GraphState) (tm0 : ToolManager)
    (hm : st0.messages = []) :
    ∃ rs, run_session env st0 tm0 = Except.ok rs ∧
      rs.st.round_count = max st0.max_iterations 2 ∧
      rs.st.messages.map DebateMessage.agent =
        (List.replicate (max st0.max_iterations 2)
          [AgentType.PRO, AgentType.CONTRA]).flatten ∧
      (∃ stPre : GraphState,
        rs.st.verdict = some (JudgeAgent.think env.judgeLlm stPre env.now)) ∧
      (0 < st0.max_searches →
        ∀ c ∈ rs.turnSearchCounts, (c : Int) ≤ st0.max_searches) ∧
      (∃ cs : List Nat, rs.turnSearchCounts = 0 :: cs) := by
  obtain ⟨hex_m, hex_r, hex_mi, hex_ms, hex_st⟩ := extract_claim_fields env st0
  obtain ⟨rs2, h2, hr2, ⟨mC, hmC, hmsg2⟩, hmi2, hms2, hcl2, hst2, c1, hc2, hcb2⟩ :=
    contra_research_step env
      (pro_opening_node env { st := extract_claim env st0, tm := tm0 })
  have hop_m : (pro_opening_node env
      { st := extract_claim env st0, tm := tm0 }).st.messages =
      [ProAgent.opening_statement env.llm (extract_claim env st0)] := by
    simp only [pro_opening_node, hex_m, hm]
    rfl
  have hop_r : (pro_opening_node env
      { st := extract_claim env st0, tm := tm0 }).st.round_count = 1 := rfl
  have hop_mi : (pro_opening_node env
      { st := extract_claim env st0, tm := tm0 }).st.max_iterations =
      st0.max_iterations := hex_mi
  have hop_ms : (pro_opening_node env
      { st := extract_claim env st0, tm := tm0 }).st.max_searches =
      st0.max_searches := hex_ms
  have hop_c : (pro_opening_node env
      { st := extract_claim env st0, tm := tm0 }).turnSearchCounts = [0] := rfl
  have hround2 : rs2.st.round_count = 1 := by rw [hr2, hop_r]
  have hmax2 : rs2.st.max_iterations = st0.max_iterations := by rw [hmi2, hop_mi]
  have hmsearch2 : rs2.st.max_searches = st0.max_searches := by rw [hms2, hop_ms]
  have hmsgs2 : rs2.st.messages =
      [ProAgent.opening_statement env.llm (extract_claim env st0), mC] := by
    rw [hmsg2, hop_m]
    rfl
  have hcounts2 : rs2.turnSearchCounts = [0, c1] := by
    rw [hc2, hop_c]
    rfl
  have hfuel : rs2.st.max_iterations - rs2.st.round_count <
      rs2.st.max_iterations + 1 := by omega
  obtain ⟨rs3, h3, hr3, ⟨pairs, hp1, hp2⟩, hmi3, hms3, hcl3, hst3,
    cs, hcs, hcsb⟩ := debate_loop_shape env (rs2.st.max_iterations + 1) rs2 hfuel
  have hround3 : rs3.st.round_count = max st0.max_iterations 2 := by
    rw [hr3, hround2, hmax2]
  refine ⟨judge_verdict_node env rs3, ?_, ?_, ?_, ⟨rs3.st, rfl⟩, ?_, ?_⟩
  · simp only [run_session]
    rw [pyTry_eq_ok h2, pyTry_eq_ok h3]
  · exact hround3
  · have : (judge_verdict_node env rs3).st.messages = rs3.st.messages := rfl
    rw [this, hp1, hmsgs2]
    have hR : rs3.st.round_count - rs2.st.round_count =
        max st0.max_iterations 2 - 1 := by
      rw [hround3, hround2]
    rw [hR] at hp2
    have hRsucc : max st0.max_iterations 2 = (max st0.max_iterations 2 - 1) + 1 := by
      omega
    rw [hRsucc, List.replicate_succ, List.flatten_cons]
    simp only [List.map_cons, List.map_append]
    rw [hp2]
    have hagent : (ProAgent.opening_statement env.llm
        (extract_claim env st0)).agent = AgentType.PRO := rfl
    rw [hagent, hmC]
    rfl
  · intro hk c hc
    have hcj : (judge_verdict_node env rs3).turnSearchCounts =
        rs3.turnSearchCounts := rfl
    rw [hcj, hcs, hcounts2] at hc
    simp only [List.cons_append, List.nil_append, List.mem_cons] at hc
    rcases hc with rfl | rfl | hc
    · omega
    · have := hcb2 (by rw [hop_ms]; exact hk)
      rwa [hop_ms] at this
    · have := hcsb (by rw [hmsearch2]; exact hk) c hc
      rwa [hmsearch2] at this
  · refine ⟨c1 :: cs, ?_⟩
    have hcj : (judge_verdict_node env rs3).turnSearchCounts =
        rs3.turnSearchCounts := rfl
    rw [hcj, hcs, hcounts2]
    rfl

/-! ## Helper lemmas: URL deduplication -/

theorem pyDictInsert_keys_sub (d : List (String × SearchResult))
    (r : SearchResult) (x : String)
    (h : x ∈ (pyDictInsert d r).map Prod.fst) :
    x ∈ d.map Prod.fst ∨ x = r.url := by
  induction d with
  | nil => simpa [pyDictInsert] using h
  | cons hd tl ih =>
    obtain ⟨k, v⟩ := hd
    by_cases hk : k = r.url
    · simp only [pyDictInsert, if_pos hk] at h
      simp only [List.map_cons, List.mem_cons] at h ⊢
      rcases h with rfl | h
      · exact Or.inl (Or.inl rfl)
      · exact Or.inl (Or.inr h)
    · simp only [pyDictInsert, if_neg hk] at h
      simp only [List.map_cons, List.mem_cons] at h ⊢
      rcases h with rfl | h
      · exact Or.inl (Or.inl rfl)
      · rcases ih h with h' | h'
        · exact Or.inl (Or.inr h')
        · exact Or.inr h'

theorem pyDictInsert_inv (d : List (String × SearchResult)) (r : SearchResult)
    (h1 : (d.map Prod.fst).Nodup) (h2 : ∀ p ∈ d, p.2.url = p.1) :
    ((pyDictInsert d r).map Prod.fst).Nodup ∧
      ∀ p ∈ pyDictInsert d r, p.2.url = p.1 := by
  induction d with
  | nil =>
    refine ⟨by simp [pyDictInsert], ?_⟩
    intro p hp
    simp only [pyDictInsert, List.mem_singleton] at hp
    subst hp
    rfl
  | cons hd tl ih =>
    obtain ⟨k, v⟩ := hd
    simp only [List.map_cons, List.nodup_cons] at h1
    have h2hd : v.url = k := h2 (k, v) (by simp)
    have h2tl : ∀ p ∈ tl, p.2.url = p.1 := fun p hp => h2 p (by simp [hp])
    by_cases hk : k = r.url
    · refine ⟨?_, ?_⟩
      · simp only [pyDictInsert, if_pos hk, List.map_cons, List.nodup_cons]
        exact ⟨h1.1, h1.2⟩
      · intro p hp
        simp only [pyDictInsert, if_pos hk, List.mem_cons] at hp
        rcases hp with rfl | hp
        · simpa using hk.symm
        · exact h2tl p hp
    · obtain ⟨ih1, ih2⟩ := ih h1.2 h2tl
      refine ⟨?_, ?_⟩
      · simp only [pyDictInsert, if_neg hk, List.map_cons, List.nodup_cons]
        refine ⟨fun hmem => ?_, ih1⟩
        rcases pyDictInsert_keys_sub tl r k hmem with h' | h'
        · exact h1.1 h'
        · exact hk h'
      · intro p hp
        simp only [pyDictInsert, if_neg hk, List.mem_cons] at hp
        rcases hp with rfl | hp
        · exact h2hd
        · exact ih2 p hp

theorem pyFold_inv (l : List SearchResult) :
    ∀ d, (d.map Prod.fst).Nodup → (∀ p ∈ d, p.2.url = p.1) →
      ((l.foldl pyDictInsert d).map Prod.fst).Nodup ∧
        ∀ p ∈ l.foldl pyDictInsert d, p.2.url = p.1 := by
  induction l with
  | nil =>
    intro d h1 h2
    exact ⟨h1, h2⟩
  | cons r l ih =>
    intro d h1 h2
    obtain ⟨h1', h2'⟩ := pyDictInsert_inv d r h1 h2
    exact ih _ h1' h2'

theorem dedupByUrl_urls_nodup (l : List SearchResult) :
    ((dedupByUrl l).map SearchResult.url).Nodup := by
  obtain ⟨h1, h2⟩ := pyFold_inv l [] (by simp) (by simp)
  unfold dedupByUrl
  rw [List.map_map]
  have heq : (l.foldl pyDictInsert []).map (SearchResult.url ∘ Prod.snd) =
      (l.foldl pyDictInsert []).map Prod.fst :=
    List.map_congr_left (fun p hp => h2 p hp)
  rw [heq]
  exact h1

theorem contra_sources_nodup (l : List SearchResult) (m : Nat)
    (f : SearchResult → Source) (hf : ∀ r, (f r).url = r.url) :
    ((((dedupByUrl l).map f).take m).map Source.url).Nodup := by
  have heq : ((((dedupByUrl l).map f).take m).map Source.url) =
      ((dedupByUrl l).map SearchResult.url).take m := by
    rw [← List.map_take, List.map_map, ← List.map_take]
    exact List.map_congr_left (fun r _ => hf r)
  rw [heq]
  exact List.Nodup.sublist (List.take_sublist m _) (dedupByUrl_urls_nodup l)

/-! ## Helper lemmas: dispatcher tiers -/

theorem search_unknown_tool (env : ToolEnv) (q : String) (c : Nat) (t : String)
    (h1 : t ≠ "brave") (h2 : t ≠ "duckduckgo") (h3 : t ≠ "google_pse") :
    SearchTools.search env q t c = Except.error PyExc.valueError := by
  unfold SearchTools.search
  rw [if_neg h1, if_neg h2, if_neg h3]

theorem factcheck_searchWebC_empty (env : ToolEnv) (tm : ToolManager)
    (q : String) (now : Nat)
    (hmiss : ∀ e, odLookup tm.search_cache
      (searchKey q "google_pse_factcheck") = some e →
      tm.ttl ≤ now - e.timestamp) :
    ToolManager.searchWebC env tm q "google_pse_factcheck" now =
      Except.ok ⟨[], tm.storeSearch (searchKey q "google_pse_factcheck") [] now,
                 [(q, "google_pse_factcheck")]⟩ := by
  have hdisp : SearchTools.search env q "google_pse_factcheck" 10 =
      Except.error PyExc.valueError :=
    search_unknown_tool env q 10 "google_pse_factcheck"
      (by decide) (by decide) (by decide)
  have hrun : ToolManager.searchWebMiss (SearchTools.dispatch env) tm q
      "google_pse_factcheck" (searchKey q "google_pse_factcheck") now =
      Except.ok ⟨[], tm.storeSearch (searchKey q "google_pse_factcheck") [] now,
                 [(q, "google_pse_factcheck")]⟩ := by
    rw [searchWebMiss_eq, dispatch_eq, hdisp]
  rw [ToolManager.searchWebC, search_web_eq]
  cases hl : odLookup tm.search_cache (searchKey q "google_pse_factcheck") with
  | some entry =>
    have := hmiss entry hl
    have hnf : ¬(now - entry.timestamp < tm.ttl) := by omega
    simp only [if_neg hnf]
    exact hrun
  | none => exact hrun

/-! ## The claims -/

/-- **C6** — For every query `q` and tool `t`, issuing `search_web(q, t)`
twice within the TTL window invokes the underlying search tool exactly once
(one dispatcher invocation on the first, cache-missing call), and both calls
return the identical stored result list (including when it is empty): the
second call is served from the query cache without re-invoking the tool and
leaves the manager unchanged. -/
theorem C6_cache_idempotence (env : ToolEnv) (tm : ToolManager) (q t : String)
    (now₁ now₂ : Nat)
    (hmiss : ∀ e, odLookup tm.search_cache (searchKey q t) = some e →
      tm.ttl ≤ now₁ - e.timestamp)
    (hfresh : now₂ - now₁ < tm.ttl) :
    ∃ out, ToolManager.searchWebC env tm q t now₁ = Except.ok out ∧
      out.invoked = [(q, t)] ∧
      ToolManager.searchWebC env out.tm q t now₂ =
        Except.ok ⟨out.results, out.tm, []⟩ := by
  obtain ⟨out, hout, htm, hinv⟩ := searchWebC_miss env tm q t now₁ hmiss
  refine ⟨out, hout, hinv, ?_⟩
  have hlook : odLookup out.tm.search_cache (searchKey q t) =
      some ⟨out.results, now₁⟩ := by
    rw [htm]
    exact odLookup_odSet_self _ _ _
  have httl : out.tm.ttl = tm.ttl := by
    rw [htm]
    rfl
  exact searchWebC_hit env out.tm q t now₂ ⟨out.results, now₁⟩ hlook
    (by rw [httl]; exact hfresh)

/-- Witness for C6 at a concrete environment, with an empty starting cache
and two calls one second apart. -/
theorem C6_witness :
    ∃ out, ToolManager.searchWebC fxToolEnv {} "q" "brave" 0 = Except.ok out ∧
      out.invoked = [("q", "brave")] ∧
      ToolManager.searchWebC fxToolEnv out.tm "q" "brave" 1 =
        Except.ok ⟨out.results, out.tm, []⟩ :=
  C6_cache_idempotence fxToolEnv {} "q" "brave" 0 1
    (fun e he => by simp [odLookup] at he) (by decide)

/-- **C7** — Each of the two caches never exceeds `MAX_CACHE_SIZE = 1000`
entries: `_add_to_cache` evicts the least-recently-inserted (head) entry when
at capacity — so at capacity the oldest key disappears unless it is the one
being re-inserted — and it preserves the size bound; both cache-writing
operations (`search_web` on the search cache, `get_url` on the URL cache)
preserve the bound and leave the other cache untouched, as does
`clear_cache`. -/
theorem C7_cache_bound :
    MAX_CACHE_SIZE = 1000
  ∧ (∀ (α : Type) (c : ODict α) (k : String) (v : CacheEntry α),
      c.length ≤ MAX_CACHE_SIZE →
      (ToolManager.add_to_cache c k v).length ≤ MAX_CACHE_SIZE)
  ∧ (∀ (α : Type) (hd : String × CacheEntry α) (tl : ODict α) (k : String)
      (v : CacheEntry α),
      MAX_CACHE_SIZE ≤ (hd :: tl).length → hd.1 ≠ k →
      hd.1 ∉ tl.map Prod.fst →
      odLookup (ToolManager.add_to_cache (hd :: tl) k v) hd.1 = none)
  ∧ (∀ (env : ToolEnv) (tm : ToolManager) (q t : String) (now : Nat)
      (out : SearchWebOut),
      ToolManager.searchWebC env tm q t now = Except.ok out →
      tm.search_cache.length ≤ MAX_CACHE_SIZE →
      out.tm.search_cache.length ≤ MAX_CACHE_SIZE ∧
        out.tm.url_cache = tm.url_cache)
  ∧ (∀ (tm : ToolManager) (url agent : String) (now : Nat),
      tm.url_cache.length ≤ MAX_CACHE_SIZE →
      (ToolManager.get_url tm url agent now).2.url_cache.length ≤ MAX_CACHE_SIZE ∧
        (ToolManager.get_url tm url agent now).2.search_cache = tm.search_cache)
  ∧ (∀ tm : ToolManager,
      (ToolManager.clear_cache tm).url_cache.length ≤ MAX_CACHE_SIZE ∧
        (ToolManager.clear_cache tm).search_cache.length ≤ MAX_CACHE_SIZE) := by
  refine ⟨rfl, fun α c k v h => add_to_cache_length_le c k v h, ?_, ?_, ?_, ?_⟩
  · intro α hd tl k v hlen hne hmem
    unfold ToolManager.add_to_cache
    rw [if_pos (by simpa using hlen)]
    have hdrop : (hd :: tl).drop 1 = tl := rfl
    rw [hdrop, odLookup_odSet_ne tl k hd.1 v hne]
    exact odLookup_eq_none tl hd.1 hmem
  · intro env tm q t now out h hb
    obtain ⟨h1, h2, _⟩ := search_web_tm_bound (SearchTools.dispatch env) tm q t
      now out h hb
    exact ⟨h1, h2⟩
  · intro tm url agent now hb
    rw [ToolManager.get_url]
    cases hl : odLookup tm.url_cache url with
    | some e =>
      by_cases hf : now - e.timestamp < tm.ttl
      · simp only [if_pos hf]
        exact ⟨hb, trivial⟩
      · simp only [if_neg hf]
        exact ⟨add_to_cache_length_le _ _ _ hb, rfl⟩
    | none =>
      exact ⟨add_to_cache_length_le _ _ _ hb, rfl⟩
  · intro tm
    constructor <;> simp [ToolManager.clear_cache, MAX_CACHE_SIZE]

/-- Witness for C7: the bound on an insertion into an empty cache, eviction
of the oldest key from a full cache, a concrete `search_web` call, a concrete
`get_url` call, and a concrete `clear_cache`. -/
theorem C7_witness :
    (ToolManager.add_to_cache ([] : ODict (List SearchResult)) "k"
      ⟨[], 0⟩).length ≤ MAX_CACHE_SIZE
  ∧ odLookup (ToolManager.add_to_cache fxFullCache "k" ⟨[], 0⟩) "a" = none
  ∧ (fxWebOut.tm.search_cache.length ≤ MAX_CACHE_SIZE ∧
      fxWebOut.tm.url_cache = (({} : ToolManager)).url_cache)
  ∧ ((ToolManager.get_url {} "http://u" "PRO" 0).2.url_cache.length ≤
      MAX_CACHE_SIZE ∧
      (ToolManager.get_url {} "http://u" "PRO" 0).2.search_cache =
        ({} : ToolManager).search_cache)
  ∧ ((ToolManager.clear_cache {}).url_cache.length ≤ MAX_CACHE_SIZE ∧
      (ToolManager.clear_cache {}).search_cache.length ≤ MAX_CACHE_SIZE) := by
  refine ⟨C7_cache_bound.2.1 _ _ _ _ (by decide), ?_, ?_, ?_, ?_⟩
  · exact C7_cache_bound.2.2.1 (List SearchResult) ("a", ⟨[], 0⟩)
      (List.replicate 999 ("b", ⟨[], 0⟩)) "k" ⟨[], 0⟩
      (by simp only [List.length_cons, List.length_replicate]
          decide)
      (by decide)
      (by simp only [List.map_replicate, List.mem_replicate]
          decide)
  · exact C7_cache_bound.2.2.2.1 fxToolEnv {} "q" "brave" 0 fxWebOut rfl (by decide)
  · exact C7_cache_bound.2.2.2.2.1 {} "http://u" "PRO" 0 (by decide)
  · exact C7_cache_bound.2.2.2.2.2 {}

/-- **C9** — `ToolManager.search_web` never propagates an exception to its
caller when composed with the repository's dispatcher (it always returns
`ok`); every HTTP-level failure of a tool (timeout, rate limit, malformed
payload) is caught inside that tool's function and converted to an empty
result list; and a dispatcher call raising `NotImplementedError` is
transparently retried against the general `"brave"` tool. -/
theorem C9_tool_failures_contained :
    (∀ (env : ToolEnv) (tm : ToolManager) (q t : String) (now : Nat),
      ∃ out, ToolManager.searchWebC env tm q t now = Except.ok out)
  ∧ (∀ (env : ToolEnv) (q : String) (c : Nat) (f : ToolFailure),
      env.braveHttp q c = Except.error f → brave_search env q c = [])
  ∧ (∀ (env : ToolEnv) (q : String) (c : Nat) (f : ToolFailure),
      env.ddgHttp q c = Except.error f → duckduckgo_search env q c = [])
  ∧ (∀ (env : ToolEnv) (q : String) (c : Nat) (f : ToolFailure),
      env.googlePseHttp q (min c 10) = Except.error f →
      google_pse_factcheck env q c = [])
  ∧ (∀ (sdisp : String → String → Nat → Except PyExc (List SearchResult))
      (tm : ToolManager) (q t key : String) (now : Nat) (rs : List SearchResult),
      sdisp q t 10 = Except.error PyExc.notImplementedError →
      sdisp q "brave" 10 = Except.ok rs →
      ToolManager.searchWebMiss sdisp tm q t key now =
        Except.ok ⟨rs, tm.storeSearch key rs now, [(q, t), (q, "brave")]⟩) := by
  refine ⟨?_, ?_, ?_, ?_, ?_⟩
  · intro env tm q t now
    cases h : ToolManager.searchWebC env tm q t now with
    | ok out => exact ⟨out, rfl⟩
    | error e => exact absurd h (searchWebC_ne_error env tm q t now e)
  · intro env q c f h
    unfold brave_search
    split_ifs with hb
    · rfl
    · rw [h]
  · intro env q c f h
    unfold duckduckgo_search
    rw [h]
  · intro env q c f h
    unfold google_pse_factcheck
    split_ifs with hb
    · rfl
    · rw [h]
  · intro sdisp tm q t key now rs h1 h2
    rw [searchWebMiss_eq, h1, h2]

/-- Witness for C9 at concrete failing capabilities and a concrete
`NotImplementedError`-raising dispatcher. -/
theorem C9_witness :
    (∃ out, ToolManager.searchWebC fxErrToolEnv {} "q" "brave" 0 = Except.ok out)
  ∧ brave_search fxErrToolEnv "q" 10 = []
  ∧ duckduckgo_search fxErrToolEnv "q" 10 = []
  ∧ google_pse_factcheck fxErrToolEnv "q" 10 = []
  ∧ ToolManager.searchWebMiss fxNieDisp {} "q" "x" "key" 0 =
      Except.ok ⟨[fxResult], ToolManager.storeSearch {} "key" [fxResult] 0,
                 [("q", "x"), ("q", "brave")]⟩ :=
  ⟨C9_tool_failures_contained.1 fxErrToolEnv {} "q" "brave" 0,
   C9_tool_failures_contained.2.1 fxErrToolEnv "q" 10 ToolFailure.timeout rfl,
   C9_tool_failures_contained.2.2.1 fxErrToolEnv "q" 10 ToolFailure.rateLimit rfl,
   C9_tool_failures_contained.2.2.2.1 fxErrToolEnv "q" 10 ToolFailure.malformed rfl,
   C9_tool_failures_contained.2.2.2.2 fxNieDisp {} "q" "x" "key" 0 [fxResult]
     rfl rfl⟩

/-- **C10** — The unified dispatcher recognizes only `"brave"`,
`"duckduckgo"` and `"google_pse"` and raises `ValueError` otherwise; since
`search_web` requests `"google_pse_factcheck"` for the fact-check tier, that
tier always yields an empty (and cached-as-empty) result list on a cache
miss, so `fact_check_first` always falls through to the general `"brave"`
search even when the fact-check credentials are configured. -/
theorem C10_factcheck_tier_unreachable :
    (∀ (env : ToolEnv) (q : String) (c : Nat) (t : String),
      t ≠ "brave" → t ≠ "duckduckgo" → t ≠ "google_pse" →
      SearchTools.search env q t c = Except.error PyExc.valueError)
  ∧ (∀ (env : ToolEnv) (tm : ToolManager) (q : String) (now : Nat),
      (∀ e, odLookup tm.search_cache
        (searchKey q "google_pse_factcheck") = some e →
        tm.ttl ≤ now - e.timestamp) →
      ToolManager.searchWebC env tm q "google_pse_factcheck" now =
        Except.ok ⟨[], tm.storeSearch (searchKey q "google_pse_factcheck") [] now,
                   [(q, "google_pse_factcheck")]⟩)
  ∧ (∀ (env : ToolEnv) (a : AgentState) (tm : ToolManager) (q : String)
      (k : Int) (now : Nat),
      env.googlePseApiKey = true → env.googlePseCx = true →
      ¬(k > 0 ∧ k ≤ (a.search_count : Int)) →
      (∀ e, odLookup tm.search_cache
        (searchKey q "google_pse_factcheck") = some e →
        tm.ttl ≤ now - e.timestamp) →
      BaseAgent.search env a tm q "fact_check_first" k now =
        pyTry (ToolManager.searchWebC env
            (tm.storeSearch (searchKey q "google_pse_factcheck") [] now)
            q "brave" now)
          (fun o2 => Except.ok ⟨o2.results, ⟨a.search_count + 1⟩, o2.tm,
            [(q, "google_pse_factcheck")] ++ o2.invoked⟩)) := by
  refine ⟨fun env q c t h1 h2 h3 => search_unknown_tool env q c t h1 h2 h3,
    fun env tm q now hmiss => factcheck_searchWebC_empty env tm q now hmiss,
    ?_⟩
  intro env a tm q k now hA hC hblock hmiss
  rw [BaseAgent.search, if_neg hblock, if_pos rfl]
  have hav : (env.googlePseApiKey && env.googlePseCx) = true := by
    rw [hA, hC]
    rfl
  rw [if_pos hav, pyTry_eq_ok (factcheck_searchWebC_empty env tm q now hmiss)]
  rw [if_neg (fun hcon => hcon rfl)]

/-- Witness for C10: the dispatcher rejects the fact-check tool name, the
fact-check tier yields empty on a concrete miss, and a concrete
`fact_check_first` search with credentials present falls through to
`"brave"`. -/
theorem C10_witness :
    SearchTools.search fxErrToolEnv "q" "google_pse_factcheck" 10 =
      Except.error PyExc.valueError
  ∧ ToolManager.searchWebC fxErrToolEnv {} "q" "google_pse_factcheck" 0 =
      Except.ok ⟨[], ToolManager.storeSearch {}
        (searchKey "q" "google_pse_factcheck") [] 0,
        [("q", "google_pse_factcheck")]⟩
  ∧ BaseAgent.search fxErrToolEnv ⟨0⟩ {} "q" "fact_check_first" (-1) 0 =
      pyTry (ToolManager.searchWebC fxErrToolEnv
          (ToolManager.storeSearch {}
            (searchKey "q" "google_pse_factcheck") [] 0) "q" "brave" 0)
        (fun o2 => Except.ok ⟨o2.results, ⟨1⟩, o2.tm,
          [("q", "google_pse_factcheck")] ++ o2.invoked⟩) :=
  ⟨C10_factcheck_tier_unreachable.1 fxErrToolEnv "q" 10 "google_pse_factcheck"
     (by decide) (by decide) (by decide),
   C10_factcheck_tier_unreachable.2.1 fxErrToolEnv {} "q" 0
     (fun e he => by simp [odLookup] at he),
   C10_factcheck_tier_unreachable.2.2 fxErrToolEnv ⟨0⟩ {} "q" (-1) 0 rfl rfl
     (by decide) (fun e he => by simp [odLookup] at he)⟩

/-- **C2** (amended) — For every agent and every per-agent budget `k ≥ 1`,
the issued-search counter never exceeds `k` (each call preserves the bound),
and every search call made once the budget is exhausted returns an empty
result list immediately, with the tool manager untouched and no dispatcher
invocation.  The claim's `k = 0` case does not hold: the guard is
`max_searches > 0`, so a budget of 0 is treated like −1 (unlimited) — see
the counterexample. -/
theorem C2_budget_enforcement (env : ToolEnv) (a : AgentState)
    (tm : ToolManager) (q s : String) (k : Int) (now : Nat) (hk : 0 < k) :
    (k ≤ (a.search_count : Int) →
      BaseAgent.search env a tm q s k now = Except.ok ⟨[], a, tm, []⟩ ∧
      ProAgent.search env a tm q s k now = Except.ok ⟨[], a, tm, []⟩)
  ∧ (∀ o, (a.search_count : Int) ≤ k →
      BaseAgent.search env a tm q s k now = Except.ok o →
      (o.agent.search_count : Int) ≤ k)
  ∧ (∀ o, (a.search_count : Int) ≤ k →
      ProAgent.search env a tm q s k now = Except.ok o →
      (o.agent.search_count : Int) ≤ k) :=
  ⟨fun hc => ⟨base_search_blocked env a tm q s k now hk hc,
              pro_search_blocked env a tm q s k now hk hc⟩,
   fun o hc h => base_search_count_le env a tm q s k now o hk hc h,
   fun o hc h => pro_search_count_le env a tm q s k now o hk hc h⟩

/-- Witness for C2 at budget 2 with an exhausted counter. -/
theorem C2_witness :
    (0 : Int) < 2 ∧ (2 : Int) ≤ (((⟨2⟩ : AgentState)).search_count : Int) ∧
    BaseAgent.search fxToolEnv ⟨2⟩ {} "q" "basic" 2 0 =
      Except.ok ⟨[], ⟨2⟩, {}, []⟩ ∧
    ProAgent.search fxToolEnv ⟨2⟩ {} "q" "basic" 2 0 =
      Except.ok ⟨[], ⟨2⟩, {}, []⟩ := by
  refine ⟨by decide, by decide, ?_, ?_⟩
  · exact ((C2_budget_enforcement fxToolEnv ⟨2⟩ {} "q" "basic" 2 0
      (by decide)).1 (by decide)).1
  · exact ((C2_budget_enforcement fxToolEnv ⟨2⟩ {} "q" "basic" 2 0
      (by decide)).1 (by decide)).2

/-- Counterexample to C2 as stated: with a budget of `k = 0` the guard
`max_searches > 0` does not fire, so the call consults the tool, returns a
non-empty result list and raises the counter to 1 > 0. -/
theorem C2_counterexample :
    (BaseAgent.search fxToolEnv ⟨0⟩ {} "q" "basic" 0 0).map
      (fun o => (o.results, o.agent.search_count, o.invoked)) =
      Except.ok ([fxResult], 1, [("q", "brave")]) ∧
    ([fxResult] : List SearchResult) ≠ [] :=
  ⟨rfl, by decide⟩

/-- **C3** (amended) — The Sources attached to a CONTRA `think` message never
contain two entries with the same URL: CONTRA deduplicates search candidates
by URL (a Python dict build keyed by URL) before Source construction and
truncation.  PRO's `think` performs no such deduplication and can attach the
same URL twice — see the counterexample. -/
theorem C3_contra_sources_unique (env : ToolEnv) (llm : Option String)
    (a : AgentState) (st : GraphState) (tm : ToolManager) (now : Nat)
    (out : ThinkOut)
    (h : ContraAgent.think env llm a st tm now = Except.ok out) :
    (out.message.sources.map Source.url).Nodup := by
  simp only [ContraAgent.think] at h
  obtain ⟨o, ho⟩ := contra_searchPhase_ok env a st tm now
  rw [pyTry_eq_ok ho] at h
  cases h
  exact contra_sources_nodup o.results _ _ (fun r => rfl)

/-- Witness for C3 on a concrete CONTRA turn. -/
theorem C3_witness :
    ContraAgent.think fxNoKeyToolEnv (some "text") ⟨0⟩ (fxState 3 (-1)) {} 0 =
      Except.ok fxContraOut ∧
    (fxContraOut.message.sources.map Source.url).Nodup :=
  ⟨by decide, C3_contra_sources_unique fxNoKeyToolEnv (some "text") ⟨0⟩
    (fxState 3 (-1)) {} 0 fxContraOut (by decide)⟩

/-- Counterexample to C3 as stated (for "every agent turn, PRO and CONTRA
alike"): a PRO deep-research turn whose search returns the same URL twice
attaches two Sources with the same URL. -/
theorem C3_counterexample :
    (ProAgent.think fxDupToolEnv (some "text") ⟨0⟩
      { fxState 3 (-1) with research_depth := some 2 } {} 0).map
      (fun o => o.message.sources.map Source.url) =
      Except.ok ["http://example.com/a", "http://example.com/a"] ∧
    ¬(["http://example.com/a", "http://example.com/a"] : List String).Nodup :=
  ⟨rfl, by decide⟩

/-- **C8** — The research-depth controller is a pure function of the most
recent message's confidence: no message selects shallow (1); a last message
with confidence strictly below 50 selects deep (2); confidence 50 or above
selects shallow (1); nothing else in the state is touched. -/
theorem C8_adaptive_depth (st : GraphState) :
    (st.messages = [] →
      adaptive_research_depth st = { st with research_depth := some 1 })
  ∧ (∀ m, st.messages.getLast? = some m → m.confidence < 50 →
      adaptive_research_depth st = { st with research_depth := some 2 })
  ∧ (∀ m, st.messages.getLast? = some m → 50 ≤ m.confidence →
      adaptive_research_depth st = { st with research_depth := some 1 }) := by
  refine ⟨?_, ?_, ?_⟩
  · intro h
    have hl : st.messages.getLast? = none := by
      rw [h]
      rfl
    simp only [adaptive_research_depth, hl]
  · intro m hl hconf
    simp only [adaptive_research_depth, hl, if_pos hconf]
  · intro m hl hconf
    simp only [adaptive_research_depth, hl, if_neg (not_lt.mpr hconf)]

/-- Witness for C8: a state with no messages, one with a low-confidence last
message, and one with a high-confidence last message. -/
theorem C8_witness :
    adaptive_research_depth (fxState 3 (-1)) =
      { fxState 3 (-1) with research_depth := some 1 }
  ∧ adaptive_research_depth
      { fxState 3 (-1) with messages := [fxContraOut.message] } =
      { fxState 3 (-1) with
        messages := [fxContraOut.message]
        research_depth := some 2 }
  ∧ adaptive_research_depth
      { fxState 3 (-1) with messages :=
          [{ fxContraOut.message with confidence := 70 }] } =
      { fxState 3 (-1) with
        messages := [{ fxContraOut.message with confidence := 70 }]
        research_depth := some 1 } := by
  refine ⟨(C8_adaptive_depth (fxState 3 (-1))).1 rfl, ?_, ?_⟩
  · exact (C8_adaptive_depth _).2.1 fxContraOut.message rfl (by decide)
  · exact (C8_adaptive_depth _).2.2 { fxContraOut.message with confidence := 70 }
      rfl (by decide)

/-- **C1** (amended) — For every configured maximum-rounds value `N`, a
fresh session that completes with no generative failures ends with
`round_count = max N 2` and a transcript of exactly `2 * max N 2`
DebateMessages, alternating PRO/CONTRA starting with the opening PRO and
opening CONTRA messages.  In particular, for `N ≥ 2` the session ends with
`round_count = N` and `2N` messages — the opening pair followed by `N − 1`
further pairs — so the `>=` continuation check at a maximum of 3 permits
exactly 3 PRO/CONTRA exchanges in total (2 completed pairs after the opening
exchange), not `2N + 2` messages as the claim counts. -/
theorem C1_round_count_and_transcript (env : Env) (st0 : GraphState)
    (tm0 : ToolManager) (N : Nat)
    (hN : st0.max_iterations = N) (hm : st0.messages = [])
    (_hllm : env.llm.isSome = true) (_hjudge : env.judgeLlm.isSome = true) :
    ∃ rs, run_session env st0 tm0 = Except.ok rs ∧
      rs.st.round_count = max N 2 ∧
      rs.st.messages.length = 2 * max N 2 ∧
      rs.st.messages.map DebateMessage.agent =
        (List.replicate (max N 2) [AgentType.PRO, AgentType.CONTRA]).flatten := by
  obtain ⟨rs, hrun, hround, hmap, _, _, _⟩ := run_session_shape env st0 tm0 hm
  subst hN
  refine ⟨rs, hrun, hround, ?_, hmap⟩
  have hlen := congrArg List.length hmap
  rw [List.length_map, flatten_replicate_length] at hlen
  have h2 : ([AgentType.PRO, AgentType.CONTRA] : List AgentType).length = 2 := rfl
  rw [h2] at hlen
  omega

/-- Witness for C1 at a concrete environment and `N = 5`. -/
theorem C1_witness :
    (fxState 5 (-1)).max_iterations = 5 ∧ (fxState 5 (-1)).messages = [] ∧
    fxEnv.llm.isSome = true ∧ fxEnv.judgeLlm.isSome = true ∧
    (∃ rs, run_session fxEnv (fxState 5 (-1)) {} = Except.ok rs ∧
      rs.st.round_count = max 5 2 ∧
      rs.st.messages.length = 2 * max 5 2 ∧
      rs.st.messages.map DebateMessage.agent =
        (List.replicate (max 5 2) [AgentType.PRO, AgentType.CONTRA]).flatten) :=
  ⟨rfl, rfl, rfl, rfl,
   C1_round_count_and_transcript fxEnv (fxState 5 (-1)) {} 5 rfl rfl rfl rfl⟩

/-- Counterexample to C1 as stated: a failure-free session with a maximum of
3 rounds ends with `round_count = 3` but a transcript of 6 messages, not
`2 * 3 + 2 = 8`. -/
theorem C1_counterexample :
    (run_session fxEnv (fxState 3 (-1)) {}).map
      (fun rs => (rs.st.round_count, rs.st.messages.length)) =
      Except.ok (3, 6) ∧ (6 : Nat) ≠ 2 * 3 + 2 :=
  ⟨rfl, by decide⟩

/-- **C4** — On a failing generative call the judge still returns the
`NON_VERIFICABILE` fallback verdict: confidence 0, the fixed explanatory
summary, empty analysis lists and an empty sources list, with metadata from
`_calculate_metadata` — the same function the success path uses to overwrite
its metadata; consequently a fresh session whose generative capability always
fails still terminates with such a verdict. -/
theorem C4_judge_fallback :
    (∀ (st : GraphState) (now : Nat),
      JudgeAgent.think none st now =
        { verdict := VerdictType.NON_VERIFICABILE
          confidence_score := 0
          summary := "An error occurred during the evaluation process. Unable to reach a verdict."
          analysis := { pro_strength := "N/A", contra_strength := "N/A",
                        consensus_facts := [], disputed_points := [] }
          sources_used := []
          metadata := JudgeAgent.calculate_metadata st now })
  ∧ (∀ (v : Verdict) (st : GraphState) (now : Nat),
      (JudgeAgent.think (some v) st now).metadata =
        JudgeAgent.calculate_metadata st now)
  ∧ (∀ (env : Env) (st0 : GraphState) (tm0 : ToolManager),
      env.llm = none → env.judgeLlm = none → st0.messages = [] →
      ∃ rs v, run_session env st0 tm0 = Except.ok rs ∧
        rs.st.verdict = some v ∧
        v.verdict = VerdictType.NON_VERIFICABILE ∧
        v.confidence_score = 0 ∧
        v.sources_used = [] ∧
        v.analysis.consensus_facts = [] ∧
        v.analysis.disputed_points = []) := by
  refine ⟨fun st now => rfl, fun v st now => rfl, ?_⟩
  intro env st0 tm0 hllm hjudge hm
  obtain ⟨rs, hrun, _, _, ⟨stPre, hverdict⟩, _, _⟩ :=
    run_session_shape env st0 tm0 hm
  rw [hjudge] at hverdict
  exact ⟨rs, _, hrun, hverdict, rfl, rfl, rfl, rfl, rfl⟩

/-- Witness for C4 at a concrete always-failing environment. -/
theorem C4_witness :
    fxEnvFail.llm = none ∧ fxEnvFail.judgeLlm = none ∧
    (fxState 3 (-1)).messages = [] ∧
    (∃ rs v, run_session fxEnvFail (fxState 3 (-1)) {} = Except.ok rs ∧
      rs.st.verdict = some v ∧
      v.verdict = VerdictType.NON_VERIFICABILE ∧
      v.confidence_score = 0 ∧
      v.sources_used = [] ∧
      v.analysis.consensus_facts = [] ∧
      v.analysis.disputed_points = []) :=
  ⟨rfl, rfl, rfl, C4_judge_fallback.2.2 fxEnvFail (fxState 3 (-1)) {} rfl rfl rfl⟩

/-- **C5** — Every node that runs an agent turn constructs a fresh agent, and
`BaseAgent.__init__` sets `search_count = 0`, so at the start of every turn
the issued-search counter is 0 and the `max_searches` budget bounds each
single turn rather than accumulating: in any completed fresh session with
budget `k > 0`, every per-turn final counter recorded by the turn nodes is
`≤ k` (the searchless opening turn records 0); `debate_round` likewise
re-instantiates both agents and its per-round counters are bounded by `k`;
and a concrete session with `k = 1` over 3 rounds records per-turn counters
`[0, 1, 1, 1, 1, 1]`, each `≤ 1`, whose session-wide total 5 exceeds the
budget — the budget does not cap the session total. -/
theorem C5_fresh_agent_per_turn :
    BaseAgent.init.search_count = 0
  ∧ (∀ (env : Env) (st0 : GraphState) (tm0 : ToolManager) (rs : RunState),
      st0.messages = [] → 0 < st0.max_searches →
      run_session env st0 tm0 = Except.ok rs →
      ∀ c ∈ rs.turnSearchCounts, (c : Int) ≤ st0.max_searches)
  ∧ (∀ (env : Env) (st : GraphState), 0 < st.max_searches →
      ∃ out, debate_round env st = Except.ok out ∧
        (out.contra_agent.search_count : Int) ≤ st.max_searches ∧
        (out.pro_agent.search_count : Int) ≤ st.max_searches)
  ∧ ((run_session fxEnv (fxState 3 1) {}).map
      (fun rs => rs.turnSearchCounts) = Except.ok [0, 1, 1, 1, 1, 1] ∧
      (0 + 1 + 1 + 1 + 1 + 1 : Nat) > 1) := by
  refine ⟨rfl, ?_, ?_, rfl, by decide⟩
  · intro env st0 tm0 rs hm hk hrun
    obtain ⟨rs', hrun', _, _, _, hbound, _⟩ := run_session_shape env st0 tm0 hm
    rw [hrun] at hrun'
    cases hrun'
    exact hbound hk
  · intro env st hk
    obtain ⟨oC, hoC, _⟩ := contra_think_ok env.tools env.llm BaseAgent.init st
      {} env.now
    simp only [debate_round]
    rw [pyTry_eq_ok hoC]
    obtain ⟨oP, hoP, _⟩ := pro_think_ok env.tools env.llm BaseAgent.init
      { st with messages := st.messages ++ [oC.message] } oC.tm env.now
    rw [pyTry_eq_ok hoP]
    refine ⟨_, rfl, ?_, ?_⟩
    · exact contra_think_count_le env.tools env.llm BaseAgent.init st {}
        env.now oC hk (by simp only [BaseAgent.init]; omega) hoC
    · exact pro_think_count_le env.tools env.llm BaseAgent.init
        { st with messages := st.messages ++ [oC.message] } oC.tm env.now oP hk
        (by simp only [BaseAgent.init]; omega) hoP

/-- Witness for C5 at a concrete session with budget 2. -/
theorem C5_witness :
    (fxState 3 2).messages = [] ∧ (0 : Int) < (fxState 3 2).max_searches ∧
    (∀ c ∈ ([0, 1, 1, 1, 1, 1] : List Nat), (c : Int) ≤ (fxState 3 2).max_searches) ∧
    (0 : Int) < (fxState 2 3).max_searches ∧
    (∃ out, debate_round fxEnv (fxState 2 3) = Except.ok out ∧
      (out.contra_agent.search_count : Int) ≤ (fxState 2 3).max_searches ∧
      (out.pro_agent.search_count : Int) ≤ (fxState 2 3).max_searches) := by
  refine ⟨rfl, by decide, ?_, by decide,
    C5_fresh_agent_per_turn.2.2.1 fxEnv (fxState 2 3) (by decide)⟩
  intro c hc
  have hrun : (run_session fxEnv (fxState 3 2) {}).map
      (fun rs => rs.turnSearchCounts) = Except.ok [0, 1, 1, 1, 1, 1] := by decide
  cases hrunOk : run_session fxEnv (fxState 3 2) {} with
  | error e => rw [hrunOk] at hrun; cases hrun
  | ok rs =>
    rw [hrunOk] at hrun
    have hcounts : rs.turnSearchCounts = [0, 1, 1, 1, 1, 1] := by
      simp only [Except.map] at hrun
      exact Except.ok.inj hrun
    exact C5_fresh_agent_per_turn.2.1 fxEnv (fxState 3 2) {} rs rfl (by decide)
      hrunOk c (by rw [hcounts]; exact hc)

end VeritasLoop
